import Mathlib

set_option maxRecDepth 20000

/-!
Formal verification of the hopla zoo-feeding planner and its surrounding domain models,
as a shallow embedding of the Python sources (pethelper.py, zoofeeding_algorithms.py,
eggmodels.py, spellmodel.py). Modules of the repository that are absent from the
snapshot (petmodels.py, foodmodels.py, hatchdata.py, hatchpotionmodels.py) are modelled
from the specification; their definitions say so in their doc comments.
-/

namespace PetData

/-- Generation-1 pet names (pethelper.py, PetData.generation1_pet_names). -/
def generation1_pet_names : List String := [
   "Wolf-Base", "Wolf-White", "Wolf-Desert", "Wolf-Red", "Wolf-Shade", "Wolf-Skeleton",
   "Wolf-Zombie", "Wolf-CottonCandyPink", "Wolf-CottonCandyBlue", "Wolf-Golden", "TigerCub-Base",
   "TigerCub-White", "TigerCub-Desert", "TigerCub-Red", "TigerCub-Shade", "TigerCub-Skeleton",
   "TigerCub-Zombie", "TigerCub-CottonCandyPink", "TigerCub-CottonCandyBlue", "TigerCub-Golden",
   "PandaCub-Base", "PandaCub-White", "PandaCub-Desert", "PandaCub-Red", "PandaCub-Shade",
   "PandaCub-Skeleton", "PandaCub-Zombie", "PandaCub-CottonCandyPink", "PandaCub-CottonCandyBlue",
   "PandaCub-Golden", "LionCub-Base", "LionCub-White", "LionCub-Desert", "LionCub-Red",
   "LionCub-Shade", "LionCub-Skeleton", "LionCub-Zombie", "LionCub-CottonCandyPink",
   "LionCub-CottonCandyBlue", "LionCub-Golden", "Fox-Base", "Fox-White", "Fox-Desert", "Fox-Red",
   "Fox-Shade", "Fox-Skeleton", "Fox-Zombie", "Fox-CottonCandyPink", "Fox-CottonCandyBlue",
   "Fox-Golden", "FlyingPig-Base", "FlyingPig-White", "FlyingPig-Desert", "FlyingPig-Red",
   "FlyingPig-Shade", "FlyingPig-Skeleton", "FlyingPig-Zombie", "FlyingPig-CottonCandyPink",
   "FlyingPig-CottonCandyBlue", "FlyingPig-Golden", "Dragon-Base", "Dragon-White",
   "Dragon-Desert", "Dragon-Red", "Dragon-Shade", "Dragon-Skeleton", "Dragon-Zombie",
   "Dragon-CottonCandyPink", "Dragon-CottonCandyBlue", "Dragon-Golden", "Cactus-Base",
   "Cactus-White", "Cactus-Desert", "Cactus-Red", "Cactus-Shade", "Cactus-Skeleton",
   "Cactus-Zombie", "Cactus-CottonCandyPink", "Cactus-CottonCandyBlue", "Cactus-Golden",
   "BearCub-Base", "BearCub-White", "BearCub-Desert", "BearCub-Red", "BearCub-Shade",
   "BearCub-Skeleton", "BearCub-Zombie", "BearCub-CottonCandyPink", "BearCub-CottonCandyBlue",
   "BearCub-Golden"]

/-- Magic-potion pet names (pethelper.py, PetData.magic_potion_pet_names). -/
def magic_potion_pet_names : List String := [
   "Wolf-RoyalPurple", "Wolf-Cupid", "Wolf-Shimmer", "Wolf-Fairy", "Wolf-Floral", "Wolf-Aquatic",
   "Wolf-Ember", "Wolf-Thunderstorm", "Wolf-Spooky", "Wolf-Ghost", "Wolf-Holly",
   "Wolf-Peppermint", "Wolf-StarryNight", "Wolf-Rainbow", "Wolf-Glass", "Wolf-Glow", "Wolf-Frost",
   "Wolf-IcySnow", "Wolf-RoseQuartz", "Wolf-Celestial", "Wolf-Sunshine", "Wolf-Bronze",
   "Wolf-Watery", "Wolf-Silver", "Wolf-Shadow", "Wolf-Amber", "Wolf-Aurora", "Wolf-Ruby",
   "Wolf-BirchBark", "Wolf-Fluorite", "Wolf-SandSculpture", "Wolf-Windup", "Wolf-Turquoise",
   "Wolf-Vampire", "Wolf-AutumnLeaf", "Wolf-BlackPearl", "Wolf-StainedGlass", "Wolf-PolkaDot",
   "Wolf-MossyStone", "Wolf-Sunset", "Wolf-Moonglow", "Wolf-SolarSystem", "TigerCub-RoyalPurple",
   "TigerCub-Cupid", "TigerCub-Shimmer", "TigerCub-Fairy", "TigerCub-Floral", "TigerCub-Aquatic",
   "TigerCub-Ember", "TigerCub-Thunderstorm", "TigerCub-Spooky", "TigerCub-Ghost",
   "TigerCub-Holly", "TigerCub-Peppermint", "TigerCub-StarryNight", "TigerCub-Rainbow",
   "TigerCub-Glass", "TigerCub-Glow", "TigerCub-Frost", "TigerCub-IcySnow", "TigerCub-RoseQuartz",
   "TigerCub-Celestial", "TigerCub-Sunshine", "TigerCub-Bronze", "TigerCub-Watery",
   "TigerCub-Silver", "TigerCub-Shadow", "TigerCub-Amber", "TigerCub-Aurora", "TigerCub-Ruby",
   "TigerCub-BirchBark", "TigerCub-Fluorite", "TigerCub-SandSculpture", "TigerCub-Windup",
   "TigerCub-Turquoise", "TigerCub-Vampire", "TigerCub-AutumnLeaf", "TigerCub-BlackPearl",
   "TigerCub-StainedGlass", "TigerCub-PolkaDot", "TigerCub-MossyStone", "TigerCub-Sunset",
   "TigerCub-Moonglow", "TigerCub-SolarSystem", "PandaCub-RoyalPurple", "PandaCub-Cupid",
   "PandaCub-Shimmer", "PandaCub-Fairy", "PandaCub-Floral", "PandaCub-Aquatic", "PandaCub-Ember",
   "PandaCub-Thunderstorm", "PandaCub-Spooky", "PandaCub-Ghost", "PandaCub-Holly",
   "PandaCub-Peppermint", "PandaCub-StarryNight", "PandaCub-Rainbow", "PandaCub-Glass",
   "PandaCub-Glow", "PandaCub-Frost", "PandaCub-IcySnow", "PandaCub-RoseQuartz",
   "PandaCub-Celestial", "PandaCub-Sunshine", "PandaCub-Bronze", "PandaCub-Watery",
   "PandaCub-Silver", "PandaCub-Shadow", "PandaCub-Amber", "PandaCub-Aurora", "PandaCub-Ruby",
   "PandaCub-BirchBark", "PandaCub-Fluorite", "PandaCub-SandSculpture", "PandaCub-Windup",
   "PandaCub-Turquoise", "PandaCub-Vampire", "PandaCub-AutumnLeaf", "PandaCub-BlackPearl",
   "PandaCub-StainedGlass", "PandaCub-PolkaDot", "PandaCub-MossyStone", "PandaCub-Sunset",
   "PandaCub-Moonglow", "PandaCub-SolarSystem", "LionCub-RoyalPurple", "LionCub-Cupid",
   "LionCub-Shimmer", "LionCub-Fairy", "LionCub-Floral", "LionCub-Aquatic", "LionCub-Ember",
   "LionCub-Thunderstorm", "LionCub-Spooky", "LionCub-Ghost", "LionCub-Holly",
   "LionCub-Peppermint", "LionCub-StarryNight", "LionCub-Rainbow", "LionCub-Glass",
   "LionCub-Glow", "LionCub-Frost", "LionCub-IcySnow", "LionCub-RoseQuartz", "LionCub-Celestial",
   "LionCub-Sunshine", "LionCub-Bronze", "LionCub-Watery", "LionCub-Silver", "LionCub-Shadow",
   "LionCub-Amber", "LionCub-Aurora", "LionCub-Ruby", "LionCub-BirchBark", "LionCub-Fluorite",
   "LionCub-SandSculpture", "LionCub-Windup", "LionCub-Turquoise", "LionCub-Vampire",
   "LionCub-AutumnLeaf", "LionCub-BlackPearl", "LionCub-StainedGlass", "LionCub-PolkaDot",
   "LionCub-MossyStone", "LionCub-Sunset", "LionCub-Moonglow", "LionCub-SolarSystem",
   "Fox-RoyalPurple", "Fox-Cupid", "Fox-Shimmer", "Fox-Fairy", "Fox-Floral", "Fox-Aquatic",
   "Fox-Ember", "Fox-Thunderstorm", "Fox-Spooky", "Fox-Ghost", "Fox-Holly", "Fox-Peppermint",
   "Fox-StarryNight", "Fox-Rainbow", "Fox-Glass", "Fox-Glow", "Fox-Frost", "Fox-IcySnow",
   "Fox-RoseQuartz", "Fox-Celestial", "Fox-Sunshine", "Fox-Bronze", "Fox-Watery", "Fox-Silver",
   "Fox-Shadow", "Fox-Amber", "Fox-Aurora", "Fox-Ruby", "Fox-BirchBark", "Fox-Fluorite",
   "Fox-SandSculpture", "Fox-Windup", "Fox-Turquoise", "Fox-Vampire", "Fox-AutumnLeaf",
   "Fox-BlackPearl", "Fox-StainedGlass", "Fox-PolkaDot", "Fox-MossyStone", "Fox-Sunset",
   "Fox-Moonglow", "Fox-SolarSystem", "FlyingPig-RoyalPurple", "FlyingPig-Cupid",
   "FlyingPig-Shimmer", "FlyingPig-Fairy", "FlyingPig-Floral", "FlyingPig-Aquatic",
   "FlyingPig-Ember", "FlyingPig-Thunderstorm", "FlyingPig-Spooky", "FlyingPig-Ghost",
   "FlyingPig-Holly", "FlyingPig-Peppermint", "FlyingPig-StarryNight", "FlyingPig-Rainbow",
   "FlyingPig-Glass", "FlyingPig-Glow", "FlyingPig-Frost", "FlyingPig-IcySnow",
   "FlyingPig-RoseQuartz", "FlyingPig-Celestial", "FlyingPig-Sunshine", "FlyingPig-Bronze",
   "FlyingPig-Watery", "FlyingPig-Silver", "FlyingPig-Shadow", "FlyingPig-Amber",
   "FlyingPig-Aurora", "FlyingPig-Ruby", "FlyingPig-BirchBark", "FlyingPig-Fluorite",
   "FlyingPig-SandSculpture", "FlyingPig-Windup", "FlyingPig-Turquoise", "FlyingPig-Vampire",
   "FlyingPig-AutumnLeaf", "FlyingPig-BlackPearl", "FlyingPig-StainedGlass", "FlyingPig-PolkaDot",
   "FlyingPig-MossyStone", "FlyingPig-Sunset", "FlyingPig-Moonglow", "FlyingPig-SolarSystem",
   "Dragon-RoyalPurple", "Dragon-Cupid", "Dragon-Shimmer", "Dragon-Fairy", "Dragon-Floral",
   "Dragon-Aquatic", "Dragon-Ember", "Dragon-Thunderstorm", "Dragon-Spooky", "Dragon-Ghost",
   "Dragon-Holly", "Dragon-Peppermint", "Dragon-StarryNight", "Dragon-Rainbow", "Dragon-Glass",
   "Dragon-Glow", "Dragon-Frost", "Dragon-IcySnow", "Dragon-RoseQuartz", "Dragon-Celestial",
   "Dragon-Sunshine", "Dragon-Bronze", "Dragon-Watery", "Dragon-Silver", "Dragon-Shadow",
   "Dragon-Amber", "Dragon-Aurora", "Dragon-Ruby", "Dragon-BirchBark", "Dragon-Fluorite",
   "Dragon-SandSculpture", "Dragon-Windup", "Dragon-Turquoise", "Dragon-Vampire",
   "Dragon-AutumnLeaf", "Dragon-BlackPearl", "Dragon-StainedGlass", "Dragon-PolkaDot",
   "Dragon-MossyStone", "Dragon-Sunset", "Dragon-Moonglow", "Dragon-SolarSystem",
   "Cactus-RoyalPurple", "Cactus-Cupid", "Cactus-Shimmer", "Cactus-Fairy", "Cactus-Floral",
   "Cactus-Aquatic", "Cactus-Ember", "Cactus-Thunderstorm", "Cactus-Spooky", "Cactus-Ghost",
   "Cactus-Holly", "Cactus-Peppermint", "Cactus-StarryNight", "Cactus-Rainbow", "Cactus-Glass",
   "Cactus-Glow", "Cactus-Frost", "Cactus-IcySnow", "Cactus-RoseQuartz", "Cactus-Celestial",
   "Cactus-Sunshine", "Cactus-Bronze", "Cactus-Watery", "Cactus-Silver", "Cactus-Shadow",
   "Cactus-Amber", "Cactus-Aurora", "Cactus-Ruby", "Cactus-BirchBark", "Cactus-Fluorite",
   "Cactus-SandSculpture", "Cactus-Windup", "Cactus-Turquoise", "Cactus-Vampire",
   "Cactus-AutumnLeaf", "Cactus-BlackPearl", "Cactus-StainedGlass", "Cactus-PolkaDot",
   "Cactus-MossyStone", "Cactus-Sunset", "Cactus-Moonglow", "Cactus-SolarSystem",
   "BearCub-RoyalPurple", "BearCub-Cupid", "BearCub-Shimmer", "BearCub-Fairy", "BearCub-Floral",
   "BearCub-Aquatic", "BearCub-Ember", "BearCub-Thunderstorm", "BearCub-Spooky", "BearCub-Ghost",
   "BearCub-Holly", "BearCub-Peppermint", "BearCub-StarryNight", "BearCub-Rainbow",
   "BearCub-Glass", "BearCub-Glow", "BearCub-Frost", "BearCub-IcySnow", "BearCub-RoseQuartz",
   "BearCub-Celestial", "BearCub-Sunshine", "BearCub-Bronze", "BearCub-Watery", "BearCub-Silver",
   "BearCub-Shadow", "BearCub-Amber", "BearCub-Aurora", "BearCub-Ruby", "BearCub-BirchBark",
   "BearCub-Fluorite", "BearCub-SandSculpture", "BearCub-Windup", "BearCub-Turquoise",
   "BearCub-Vampire", "BearCub-AutumnLeaf", "BearCub-BlackPearl", "BearCub-StainedGlass",
   "BearCub-PolkaDot", "BearCub-MossyStone", "BearCub-Sunset", "BearCub-Moonglow",
   "BearCub-SolarSystem"]

/-- Quest pet names (pethelper.py, PetData.quest_pet_names). -/
def quest_pet_names : List String := [
   "Gryphon-Base", "Gryphon-White", "Gryphon-Desert", "Gryphon-Red", "Gryphon-Shade",
   "Gryphon-Skeleton", "Gryphon-Zombie", "Gryphon-CottonCandyPink", "Gryphon-CottonCandyBlue",
   "Gryphon-Golden", "Hedgehog-Base", "Hedgehog-White", "Hedgehog-Desert", "Hedgehog-Red",
   "Hedgehog-Shade", "Hedgehog-Skeleton", "Hedgehog-Zombie", "Hedgehog-CottonCandyPink",
   "Hedgehog-CottonCandyBlue", "Hedgehog-Golden", "Deer-Base", "Deer-White", "Deer-Desert",
   "Deer-Red", "Deer-Shade", "Deer-Skeleton", "Deer-Zombie", "Deer-CottonCandyPink",
   "Deer-CottonCandyBlue", "Deer-Golden", "Egg-Base", "Egg-White", "Egg-Desert", "Egg-Red",
   "Egg-Shade", "Egg-Skeleton", "Egg-Zombie", "Egg-CottonCandyPink", "Egg-CottonCandyBlue",
   "Egg-Golden", "Rat-Base", "Rat-White", "Rat-Desert", "Rat-Red", "Rat-Shade", "Rat-Skeleton",
   "Rat-Zombie", "Rat-CottonCandyPink", "Rat-CottonCandyBlue", "Rat-Golden", "Octopus-Base",
   "Octopus-White", "Octopus-Desert", "Octopus-Red", "Octopus-Shade", "Octopus-Skeleton",
   "Octopus-Zombie", "Octopus-CottonCandyPink", "Octopus-CottonCandyBlue", "Octopus-Golden",
   "Seahorse-Base", "Seahorse-White", "Seahorse-Desert", "Seahorse-Red", "Seahorse-Shade",
   "Seahorse-Skeleton", "Seahorse-Zombie", "Seahorse-CottonCandyPink", "Seahorse-CottonCandyBlue",
   "Seahorse-Golden", "Parrot-Base", "Parrot-White", "Parrot-Desert", "Parrot-Red",
   "Parrot-Shade", "Parrot-Skeleton", "Parrot-Zombie", "Parrot-CottonCandyPink",
   "Parrot-CottonCandyBlue", "Parrot-Golden", "Rooster-Base", "Rooster-White", "Rooster-Desert",
   "Rooster-Red", "Rooster-Shade", "Rooster-Skeleton", "Rooster-Zombie",
   "Rooster-CottonCandyPink", "Rooster-CottonCandyBlue", "Rooster-Golden", "Spider-Base",
   "Spider-White", "Spider-Desert", "Spider-Red", "Spider-Shade", "Spider-Skeleton",
   "Spider-Zombie", "Spider-CottonCandyPink", "Spider-CottonCandyBlue", "Spider-Golden",
   "Owl-Base", "Owl-White", "Owl-Desert", "Owl-Red", "Owl-Shade", "Owl-Skeleton", "Owl-Zombie",
   "Owl-CottonCandyPink", "Owl-CottonCandyBlue", "Owl-Golden", "Penguin-Base", "Penguin-White",
   "Penguin-Desert", "Penguin-Red", "Penguin-Shade", "Penguin-Skeleton", "Penguin-Zombie",
   "Penguin-CottonCandyPink", "Penguin-CottonCandyBlue", "Penguin-Golden", "TRex-Base",
   "TRex-White", "TRex-Desert", "TRex-Red", "TRex-Shade", "TRex-Skeleton", "TRex-Zombie",
   "TRex-CottonCandyPink", "TRex-CottonCandyBlue", "TRex-Golden", "Rock-Base", "Rock-White",
   "Rock-Desert", "Rock-Red", "Rock-Shade", "Rock-Skeleton", "Rock-Zombie",
   "Rock-CottonCandyPink", "Rock-CottonCandyBlue", "Rock-Golden", "Bunny-Base", "Bunny-White",
   "Bunny-Desert", "Bunny-Red", "Bunny-Shade", "Bunny-Skeleton", "Bunny-Zombie",
   "Bunny-CottonCandyPink", "Bunny-CottonCandyBlue", "Bunny-Golden", "Slime-Base", "Slime-White",
   "Slime-Desert", "Slime-Red", "Slime-Shade", "Slime-Skeleton", "Slime-Zombie",
   "Slime-CottonCandyPink", "Slime-CottonCandyBlue", "Slime-Golden", "Sheep-Base", "Sheep-White",
   "Sheep-Desert", "Sheep-Red", "Sheep-Shade", "Sheep-Skeleton", "Sheep-Zombie",
   "Sheep-CottonCandyPink", "Sheep-CottonCandyBlue", "Sheep-Golden", "Cuttlefish-Base",
   "Cuttlefish-White", "Cuttlefish-Desert", "Cuttlefish-Red", "Cuttlefish-Shade",
   "Cuttlefish-Skeleton", "Cuttlefish-Zombie", "Cuttlefish-CottonCandyPink",
   "Cuttlefish-CottonCandyBlue", "Cuttlefish-Golden", "Whale-Base", "Whale-White", "Whale-Desert",
   "Whale-Red", "Whale-Shade", "Whale-Skeleton", "Whale-Zombie", "Whale-CottonCandyPink",
   "Whale-CottonCandyBlue", "Whale-Golden", "Cheetah-Base", "Cheetah-White", "Cheetah-Desert",
   "Cheetah-Red", "Cheetah-Shade", "Cheetah-Skeleton", "Cheetah-Zombie",
   "Cheetah-CottonCandyPink", "Cheetah-CottonCandyBlue", "Cheetah-Golden", "Horse-Base",
   "Horse-White", "Horse-Desert", "Horse-Red", "Horse-Shade", "Horse-Skeleton", "Horse-Zombie",
   "Horse-CottonCandyPink", "Horse-CottonCandyBlue", "Horse-Golden", "Frog-Base", "Frog-White",
   "Frog-Desert", "Frog-Red", "Frog-Shade", "Frog-Skeleton", "Frog-Zombie",
   "Frog-CottonCandyPink", "Frog-CottonCandyBlue", "Frog-Golden", "Snake-Base", "Snake-White",
   "Snake-Desert", "Snake-Red", "Snake-Shade", "Snake-Skeleton", "Snake-Zombie",
   "Snake-CottonCandyPink", "Snake-CottonCandyBlue", "Snake-Golden", "Unicorn-Base",
   "Unicorn-White", "Unicorn-Desert", "Unicorn-Red", "Unicorn-Shade", "Unicorn-Skeleton",
   "Unicorn-Zombie", "Unicorn-CottonCandyPink", "Unicorn-CottonCandyBlue", "Unicorn-Golden",
   "Sabretooth-Base", "Sabretooth-White", "Sabretooth-Desert", "Sabretooth-Red",
   "Sabretooth-Shade", "Sabretooth-Skeleton", "Sabretooth-Zombie", "Sabretooth-CottonCandyPink",
   "Sabretooth-CottonCandyBlue", "Sabretooth-Golden", "Monkey-Base", "Monkey-White",
   "Monkey-Desert", "Monkey-Red", "Monkey-Shade", "Monkey-Skeleton", "Monkey-Zombie",
   "Monkey-CottonCandyPink", "Monkey-CottonCandyBlue", "Monkey-Golden", "Snail-Base",
   "Snail-White", "Snail-Desert", "Snail-Red", "Snail-Shade", "Snail-Skeleton", "Snail-Zombie",
   "Snail-CottonCandyPink", "Snail-CottonCandyBlue", "Snail-Golden", "Falcon-Base",
   "Falcon-White", "Falcon-Desert", "Falcon-Red", "Falcon-Shade", "Falcon-Skeleton",
   "Falcon-Zombie", "Falcon-CottonCandyPink", "Falcon-CottonCandyBlue", "Falcon-Golden",
   "Treeling-Base", "Treeling-White", "Treeling-Desert", "Treeling-Red", "Treeling-Shade",
   "Treeling-Skeleton", "Treeling-Zombie", "Treeling-CottonCandyPink", "Treeling-CottonCandyBlue",
   "Treeling-Golden", "Axolotl-Base", "Axolotl-White", "Axolotl-Desert", "Axolotl-Red",
   "Axolotl-Shade", "Axolotl-Skeleton", "Axolotl-Zombie", "Axolotl-CottonCandyPink",
   "Axolotl-CottonCandyBlue", "Axolotl-Golden", "Turtle-Base", "Turtle-White", "Turtle-Desert",
   "Turtle-Red", "Turtle-Shade", "Turtle-Skeleton", "Turtle-Zombie", "Turtle-CottonCandyPink",
   "Turtle-CottonCandyBlue", "Turtle-Golden", "Armadillo-Base", "Armadillo-White",
   "Armadillo-Desert", "Armadillo-Red", "Armadillo-Shade", "Armadillo-Skeleton",
   "Armadillo-Zombie", "Armadillo-CottonCandyPink", "Armadillo-CottonCandyBlue",
   "Armadillo-Golden", "Cow-Base", "Cow-White", "Cow-Desert", "Cow-Red", "Cow-Shade",
   "Cow-Skeleton", "Cow-Zombie", "Cow-CottonCandyPink", "Cow-CottonCandyBlue", "Cow-Golden",
   "Beetle-Base", "Beetle-White", "Beetle-Desert", "Beetle-Red", "Beetle-Shade",
   "Beetle-Skeleton", "Beetle-Zombie", "Beetle-CottonCandyPink", "Beetle-CottonCandyBlue",
   "Beetle-Golden", "Ferret-Base", "Ferret-White", "Ferret-Desert", "Ferret-Red", "Ferret-Shade",
   "Ferret-Skeleton", "Ferret-Zombie", "Ferret-CottonCandyPink", "Ferret-CottonCandyBlue",
   "Ferret-Golden", "Sloth-Base", "Sloth-White", "Sloth-Desert", "Sloth-Red", "Sloth-Shade",
   "Sloth-Skeleton", "Sloth-Zombie", "Sloth-CottonCandyPink", "Sloth-CottonCandyBlue",
   "Sloth-Golden", "Triceratops-Base", "Triceratops-White", "Triceratops-Desert",
   "Triceratops-Red", "Triceratops-Shade", "Triceratops-Skeleton", "Triceratops-Zombie",
   "Triceratops-CottonCandyPink", "Triceratops-CottonCandyBlue", "Triceratops-Golden",
   "GuineaPig-Base", "GuineaPig-White", "GuineaPig-Desert", "GuineaPig-Red", "GuineaPig-Shade",
   "GuineaPig-Skeleton", "GuineaPig-Zombie", "GuineaPig-CottonCandyPink",
   "GuineaPig-CottonCandyBlue", "GuineaPig-Golden", "Peacock-Base", "Peacock-White",
   "Peacock-Desert", "Peacock-Red", "Peacock-Shade", "Peacock-Skeleton", "Peacock-Zombie",
   "Peacock-CottonCandyPink", "Peacock-CottonCandyBlue", "Peacock-Golden", "Butterfly-Base",
   "Butterfly-White", "Butterfly-Desert", "Butterfly-Red", "Butterfly-Shade",
   "Butterfly-Skeleton", "Butterfly-Zombie", "Butterfly-CottonCandyPink",
   "Butterfly-CottonCandyBlue", "Butterfly-Golden", "Nudibranch-Base", "Nudibranch-White",
   "Nudibranch-Desert", "Nudibranch-Red", "Nudibranch-Shade", "Nudibranch-Skeleton",
   "Nudibranch-Zombie", "Nudibranch-CottonCandyPink", "Nudibranch-CottonCandyBlue",
   "Nudibranch-Golden", "Hippo-Base", "Hippo-White", "Hippo-Desert", "Hippo-Red", "Hippo-Shade",
   "Hippo-Skeleton", "Hippo-Zombie", "Hippo-CottonCandyPink", "Hippo-CottonCandyBlue",
   "Hippo-Golden", "Yarn-Base", "Yarn-White", "Yarn-Desert", "Yarn-Red", "Yarn-Shade",
   "Yarn-Skeleton", "Yarn-Zombie", "Yarn-CottonCandyPink", "Yarn-CottonCandyBlue", "Yarn-Golden",
   "Pterodactyl-Base", "Pterodactyl-White", "Pterodactyl-Desert", "Pterodactyl-Red",
   "Pterodactyl-Shade", "Pterodactyl-Skeleton", "Pterodactyl-Zombie",
   "Pterodactyl-CottonCandyPink", "Pterodactyl-CottonCandyBlue", "Pterodactyl-Golden",
   "Badger-Base", "Badger-White", "Badger-Desert", "Badger-Red", "Badger-Shade",
   "Badger-Skeleton", "Badger-Zombie", "Badger-CottonCandyPink", "Badger-CottonCandyBlue",
   "Badger-Golden", "Squirrel-Base", "Squirrel-White", "Squirrel-Desert", "Squirrel-Red",
   "Squirrel-Shade", "Squirrel-Skeleton", "Squirrel-Zombie", "Squirrel-CottonCandyPink",
   "Squirrel-CottonCandyBlue", "Squirrel-Golden", "SeaSerpent-Base", "SeaSerpent-White",
   "SeaSerpent-Desert", "SeaSerpent-Red", "SeaSerpent-Shade", "SeaSerpent-Skeleton",
   "SeaSerpent-Zombie", "SeaSerpent-CottonCandyPink", "SeaSerpent-CottonCandyBlue",
   "SeaSerpent-Golden", "Kangaroo-Base", "Kangaroo-White", "Kangaroo-Desert", "Kangaroo-Red",
   "Kangaroo-Shade", "Kangaroo-Skeleton", "Kangaroo-Zombie", "Kangaroo-CottonCandyPink",
   "Kangaroo-CottonCandyBlue", "Kangaroo-Golden", "Alligator-Base", "Alligator-White",
   "Alligator-Desert", "Alligator-Red", "Alligator-Shade", "Alligator-Skeleton",
   "Alligator-Zombie", "Alligator-CottonCandyPink", "Alligator-CottonCandyBlue",
   "Alligator-Golden", "Velociraptor-Base", "Velociraptor-White", "Velociraptor-Desert",
   "Velociraptor-Red", "Velociraptor-Shade", "Velociraptor-Skeleton", "Velociraptor-Zombie",
   "Velociraptor-CottonCandyPink", "Velociraptor-CottonCandyBlue", "Velociraptor-Golden",
   "Dolphin-Base", "Dolphin-White", "Dolphin-Desert", "Dolphin-Red", "Dolphin-Shade",
   "Dolphin-Skeleton", "Dolphin-Zombie", "Dolphin-CottonCandyPink", "Dolphin-CottonCandyBlue",
   "Dolphin-Golden", "Robot-Base", "Robot-White", "Robot-Desert", "Robot-Red", "Robot-Shade",
   "Robot-Skeleton", "Robot-Zombie", "Robot-CottonCandyPink", "Robot-CottonCandyBlue",
   "Robot-Golden"]

/-- Wacky pet names (pethelper.py, PetData.wacky_pet_names). -/
def wacky_pet_names : List String := [
   "Wolf-Veggie", "Wolf-Dessert", "TigerCub-Veggie", "TigerCub-Dessert", "PandaCub-Veggie",
   "PandaCub-Dessert", "LionCub-Veggie", "LionCub-Dessert", "Fox-Veggie", "Fox-Dessert",
   "FlyingPig-Veggie", "FlyingPig-Dessert", "Dragon-Veggie", "Dragon-Dessert", "Cactus-Veggie",
   "Cactus-Dessert", "BearCub-Veggie", "BearCub-Dessert"]

/-- World-boss reward pet names (pethelper.py). -/
def world_boss_reward_pet_names : List String := [
   "Hippogriff-Hopeful", "MagicalBee-Base", "Phoenix-Base", "Mammoth-Base", "MantisShrimp-Base"]

/-- Event-item sequence pet names (pethelper.py). -/
def event_item_sequence_pet_names : List String := [
   "Wolf-Veteran", "Turkey-Base", "JackOLantern-Base", "Tiger-Veteran", "Turkey-Gilded",
   "Lion-Veteran", "Gryphon-RoyalPurple", "JackOLantern-Ghost", "Orca-Base", "Bear-Veteran",
   "Fox-Veteran", "JackOLantern-Glow", "JackOLantern-RoyalPurple"]

/-- Other rare pet names (pethelper.py). -/
def other_pet_names : List String := [
   "Jackalope-RoyalPurple", "BearCub-Polar", "Dragon-Hydra", "Wolf-Cerberus",
   "Gryphon-Gryphatrice"]

/-- Mapping from hatching potion to favorite food (pethelper.py,
PetData.hatching_potion_favorite_food_mapping), as an insertion-ordered association list. -/
def hatching_potion_favorite_food_mapping : List (String × String) := [
  ("Base", "Meat"),
  ("White", "Milk"),
  ("Desert", "Potatoe"),
  ("Red", "Strawberry"),
  ("Shade", "Chocolate"),
  ("Skeleton", "Fish"),
  ("Zombie", "RottenMeat"),
  ("CottonCandyPink", "CottonCandyPink"),
  ("CottonCandyBlue", "CottonCandyBlue"),
  ("Golden", "Honey")]

/-- List of the non-magic, non-special hatching potions (pethelper.py). -/
def drop_hatching_potions : List String := hatching_potion_favorite_food_mapping.map Prod.fst

/-- List of food that can be dropped by doing tasks (pethelper.py). -/
def drop_food_names : List String := hatching_potion_favorite_food_mapping.map Prod.snd

/-- Rare pet names (pethelper.py, PetData.rare_pet_names). -/
def rare_pet_names : List String :=
  world_boss_reward_pet_names ++ event_item_sequence_pet_names ++ other_pet_names

/-- Pet names with exactly one favorite food (pethelper.py). -/
def only_1favorite_food_pet_names : List String := generation1_pet_names ++ quest_pet_names

/-- Names of pets that can be fed (pethelper.py). -/
def feedable_pet_names : List String := only_1favorite_food_pet_names ++ magic_potion_pet_names

/-- Names of pets that cannot be fed (pethelper.py). -/
def unfeedable_pet_names : List String := rare_pet_names ++ wacky_pet_names

/-- The full catalog of valid pet names (pethelper.py, PetData.pet_names). -/
def pet_names : List String :=
  generation1_pet_names ++ magic_potion_pet_names ++ quest_pet_names ++ wacky_pet_names
    ++ rare_pet_names

end PetData

namespace EggData

/-- Modelled from the spec: hatchdata.py (EggData) is not in the repository snapshot.
Standard (drop) egg names are the generation-1 species of the pet catalog
(spec section 3: standard (drop) vs quest eggs, mutually exclusive, catalog-determined). -/
def drop_egg_names : List String := [
   "Wolf", "TigerCub", "PandaCub", "LionCub", "Fox", "FlyingPig", "Dragon", "Cactus", "BearCub"]

/-- Modelled from the spec: hatchdata.py (EggData) is not in the repository snapshot.
Quest egg names are the quest species of the pet catalog. -/
def quest_egg_names : List String := [
   "Gryphon", "Hedgehog", "Deer", "Egg", "Rat", "Octopus", "Seahorse", "Parrot", "Rooster",
   "Spider", "Owl", "Penguin", "TRex", "Rock", "Bunny", "Slime", "Sheep", "Cuttlefish", "Whale",
   "Cheetah", "Horse", "Frog", "Snake", "Unicorn", "Sabretooth", "Monkey", "Snail", "Falcon",
   "Treeling", "Axolotl", "Turtle", "Armadillo", "Cow", "Beetle", "Ferret", "Sloth",
   "Triceratops", "GuineaPig", "Peacock", "Butterfly", "Nudibranch", "Hippo", "Yarn",
   "Pterodactyl", "Badger", "Squirrel", "SeaSerpent", "Kangaroo", "Alligator", "Velociraptor",
   "Dolphin", "Robot"]

/-- Modelled from the spec: the catalog of valid egg names (hatchdata.py missing). -/
def egg_names : List String := drop_egg_names ++ quest_egg_names

end EggData

namespace HatchPotionData

/-- Modelled from the spec: hatchdata.py (HatchPotionData) is not in the repository
snapshot. The magic hatching potion names are the variant suffixes of the magic-potion
pet catalog. -/
def magic_hatch_potion_names : List String := [
   "RoyalPurple", "Cupid", "Shimmer", "Fairy", "Floral", "Aquatic", "Ember", "Thunderstorm",
   "Spooky", "Ghost", "Holly", "Peppermint", "StarryNight", "Rainbow", "Glass", "Glow", "Frost",
   "IcySnow", "RoseQuartz", "Celestial", "Sunshine", "Bronze", "Watery", "Silver", "Shadow",
   "Amber", "Aurora", "Ruby", "BirchBark", "Fluorite", "SandSculpture", "Windup", "Turquoise",
   "Vampire", "AutumnLeaf", "BlackPearl", "StainedGlass", "PolkaDot", "MossyStone", "Sunset",
   "Moonglow", "SolarSystem"]

/-- Modelled from the spec: the wacky hatching potions (test_hatchpotionmodels.py
exercises Veggie and Dessert as the wacky potions). -/
def wacky_hatch_potion_names : List String := ["Veggie", "Dessert"]

/-- Modelled from the spec: the catalog of valid hatching potion names, standard then
magic then wacky (spec section 3: standard / magic / wacky, mutually exclusive). -/
def hatch_potion_names : List String :=
  PetData.drop_hatching_potions ++ magic_hatch_potion_names ++ wacky_hatch_potion_names

end HatchPotionData

/-- Integer ceiling division of `a` by `b` for `b > 0`, the value Python's
`math.ceil(a / b)` computes on integer operands (`Int.fdiv` is floor division). -/
def int_ceil_div (a b : Int) : Int := -((-a).fdiv b)

/-- Feeding status of a pet (pethelper.py, class `FeedingStatus`). -/
structure FeedingStatus where
  feeding_status : Int
  deriving DecidableEq, Repr

namespace FeedingStatus

/-- Every pet starts at feeding status 5 (pethelper.py). -/
def START_FEEDING_STATE : Int := 5

/-- Feeding status 50 would turn the pet into a mount (pethelper.py). -/
def FULLY_FED_STATE : Int := 50

/-- Feeding increment for a favorite food (pethelper.py). -/
def FAVORITE_INCREMENT : Int := 5

/-- Feeding increment for a non-favorite food (pethelper.py). -/
def NON_FAVORITE_INCREMENT : Int := 2

/-- Checked constructor of `FeedingStatus` (pethelper.py, `FeedingStatus.__init__`):
`none` models the Python constructor raising `InvalidFeedingStatus`, which happens
exactly when `feeding_status < -1 or feeding_status in [1, 2, 3, 4] or
feeding_status >= 50`. -/
def make (feeding_status : Int) : Option FeedingStatus :=
  if feeding_status < -1 ∨ feeding_status ∈ [(1 : Int), 2, 3, 4] ∨ 50 ≤ feeding_status then
    none
  else
    some ⟨feeding_status⟩

/-- Number of food items needed to turn the pet into a mount (pethelper.py,
`FeedingStatus.required_food_items_to_become_mount`): `math.ceil(target / 5)` for a
favorite food and `math.ceil(target / 2)` otherwise, with `target = 50 - feeding_status`. -/
def required_food_items_to_become_mount (fs : FeedingStatus) (favorite : Bool) : Int :=
  let target := FULLY_FED_STATE - fs.feeding_status
  if favorite then int_ceil_div target FAVORITE_INCREMENT
  else int_ceil_div target NON_FAVORITE_INCREMENT

end FeedingStatus

/-- A Habitica pet (pethelper.py, class `Pet`): a name together with a feeding status. -/
structure Pet where
  pet_name : String
  feeding_status : FeedingStatus
  deriving DecidableEq, Repr

namespace Pet

/-- Checked constructor of `Pet` (pethelper.py, `Pet.__init__`): `none` models the
constructor raising `InvalidPet`, which happens exactly when the name is not in
`PetData.pet_names`. -/
def make (pet_name : String) (feeding_status : FeedingStatus) : Option Pet :=
  if PetData.pet_names.contains pet_name then some ⟨pet_name, feeding_status⟩ else none

/-- The hatching potion of the pet (pethelper.py, `Pet.__init__` and the
`hatching_potion` property): `None` for rare pets, otherwise the part of the name after
the `-` separator. Catalog non-rare names have exactly one `-`, so `getD 1` models
Python's two-element unpacking of `pet_name.split("-")` for them. -/
def hatching_potion (p : Pet) : Option String :=
  if PetData.rare_pet_names.contains p.pet_name then none
  else some ((p.pet_name.splitOn "-").getD 1 "")

/-- True when the pet can be fed at all (pethelper.py, `Pet.is_feedable`). -/
def is_feedable (p : Pet) : Bool := !(PetData.unfeedable_pet_names.contains p.pet_name)

/-- True when the pet likes only one type of food (pethelper.py,
`Pet.has_just_1_favorite_food`). -/
def has_just_1_favorite_food (p : Pet) : Bool :=
  PetData.only_1favorite_food_pet_names.contains p.pet_name

/-- True when the pet prefers all food (pethelper.py, `Pet.likes_all_food`). -/
def likes_all_food (p : Pet) : Bool := PetData.magic_potion_pet_names.contains p.pet_name

/-- True when the pet is a generation-1 pet (pethelper.py, `Pet.is_generation1_pet`). -/
def is_generation1_pet (p : Pet) : Bool :=
  PetData.generation1_pet_names.contains p.pet_name

/-- Modelled from the spec: `Pet.is_quest_pet` lives in petmodels.py, which is not in the
repository snapshot; by spec section 3 the category is determined by membership of the
name in the quest catalog. -/
def is_quest_pet (p : Pet) : Bool := PetData.quest_pet_names.contains p.pet_name

/-- Modelled from the spec: `Pet.is_magic_hatching_pet` lives in petmodels.py, which is
not in the repository snapshot; by spec section 3 the category is determined by
membership of the name in the magic-potion catalog. -/
def is_magic_hatching_pet (p : Pet) : Bool :=
  PetData.magic_potion_pet_names.contains p.pet_name

/-- Favorite food of the pet (pethelper.py, `Pet.favorite_food`, called with its default
arguments): unfeedable pets get the sentinel `"Unfeedable"`, magic-potion pets the
sentinel `"Any"`, single-favorite pets look their potion up in the potion-to-food table.
The final branch models the `raise InvalidPet` fall-through (unreachable for catalog
pets, whose feedable names are exactly the single-favorite and magic names) by the
sentinel `"InvalidPet"`; the `getD "None"` models Python's `dict.get` returning `None`
(also unreachable for catalog pets, whose variants are all in the table). -/
def favorite_food (p : Pet) : String :=
  if p.is_feedable = false then "Unfeedable"
  else if PetData.magic_potion_pet_names.contains p.pet_name then "Any"
  else if p.has_just_1_favorite_food then
    match p.hatching_potion with
    | some potion => (PetData.hatching_potion_favorite_food_mapping.lookup potion).getD "None"
    | none => "None"
  else "InvalidPet"

/-- True when `food_name` is this pet's favorite food (pethelper.py,
`Pet.is_favorite_food`). The final branch models the `raise InvalidPet` fall-through
(unreachable for catalog pets) as `false`. -/
def is_favorite_food (p : Pet) (food_name : String) : Bool :=
  if p.is_feedable = false then false
  else if p.likes_all_food then true
  else if p.has_just_1_favorite_food then p.favorite_food == food_name
  else false

/-- Modelled from the spec: `Pet.required_food_items_until_mount` lives in petmodels.py,
which is not in the repository snapshot. Per spec section 4.1 it is
`ceil(target / 5)` when the food is this pet's favorite and `ceil(target / 2)`
otherwise, which is pethelper.py's `required_food_items_to_become_mount` applied to
`is_favorite_food`. -/
def required_food_items_until_mount (p : Pet) (food_name : String) : Int :=
  p.feeding_status.required_food_items_to_become_mount (p.is_favorite_food food_name)

end Pet

/-- Modelled from the spec: foodmodels.py (class `FoodStockpile`) is not in the
repository snapshot. Per spec section 3 a stockpile is an insertion-ordered mapping from
food name to integer count, here an association list whose first matching key is the
binding (later duplicate keys are shadowed, as in a Python dict there are none). -/
structure FoodStockpile where
  stockpile : List (String × Int)
  deriving DecidableEq, Repr

/-- Count of food `f` in an association list: the first binding of `f`, or 0 when `f` is
absent. -/
def foodCountOf : List (String × Int) → String → Int
  | [], _ => 0
  | (g, c) :: rest, f => if g = f then c else foodCountOf rest f

/-- Replace the count `c` of the first binding of `f` by `c + n`; identity when `f` is
absent. -/
def modifyFoodList : List (String × Int) → String → Int → List (String × Int)
  | [], _, _ => []
  | (g, c) :: rest, f, n => if g = f then (g, c + n) :: rest else (g, c) :: modifyFoodList rest f n

/-- Scan for the food with the highest count, first-seen ties winning (a strictly larger
count is needed to displace the current best). -/
def mostAbundantFrom : String → Int → List (String × Int) → String
  | best, _, [] => best
  | best, bestCount, (g, c) :: rest =>
    if bestCount < c then mostAbundantFrom g c rest else mostAbundantFrom best bestCount rest

namespace FoodStockpile

/-- Current count of a food in the stockpile. -/
def food_count (s : FoodStockpile) (food_name : String) : Int := foodCountOf s.stockpile food_name

/-- Modelled from the spec (section 4.2): `has_sufficient(food, n)` is true iff the
current count of the food is at least `n`. -/
def has_sufficient (s : FoodStockpile) (food_name : String) (n : Int) : Bool :=
  decide (n ≤ s.food_count food_name)

/-- Modelled from the spec (section 3): add `n` (which may be negative) to the count of
the food. The algorithm only subtracts under a `has_sufficient` guard, so the
signal-an-error-below-zero branch of the spec is never taken by `make_plan`. -/
def modify_stockpile (s : FoodStockpile) (food_name : String) (n : Int) : FoodStockpile :=
  ⟨modifyFoodList s.stockpile food_name n⟩

/-- Modelled from the spec (section 4.2): the name with the highest count, ties broken
by first-seen order. Python's `max` over an empty mapping raises; the empty stockpile is
given the sentinel `""` here. -/
def get_most_abundant_food (s : FoodStockpile) : String :=
  match s.stockpile with
  | [] => ""
  | (g, c) :: rest => mostAbundantFrom g c rest

end FoodStockpile

/-- Modelled from the spec: petmodels.py (`Zoo` entries) is not in the repository
snapshot. Per spec section 3 a zoo maps each pet name to a pet paired with a
mount-ownership flag. -/
structure PetMountPair where
  pet : Pet
  mount : Bool
  deriving DecidableEq, Repr

/-- Modelled from the spec: a `Zoo` is an insertion-ordered mapping from pet name to
`PetMountPair` (petmodels.py is not in the repository snapshot). -/
abbrev Zoo := List (String × PetMountPair)

/-- Modelled from the spec (section 4.2): `ZooHelper.filter_on_pet` returns the sub-zoo
of entries whose pet satisfies the predicate, preserving order. -/
def filter_on_pet (pred : Pet → Bool) (zoo : Zoo) : Zoo :=
  zoo.filter (fun entry => pred entry.2.pet)

/-- Modelled from the spec: whether a zoo entry can be fed — the pet is feedable (not
rare or wacky), the mount is not already owned, and the feeding status is not the
sentinel -1 for an already-converted pet (spec sections 3 and 4.3). -/
def can_feed_pet (pair : PetMountPair) : Bool :=
  pair.pet.is_feedable && !pair.mount && !(pair.pet.feeding_status.feeding_status == -1)

/-- Modelled from the spec: `ZooHelper.get_feedable_zoo` keeps exactly the feedable
entries, preserving order (petmodels.py is not in the repository snapshot). -/
def get_feedable_zoo (zoo : Zoo) : Zoo := zoo.filter (fun entry => can_feed_pet entry.2)

/-- One planned feeding action (zoofeeding_algorithms.py, namedtuple `FeedPlanItem`). -/
structure FeedPlanItem where
  pet_name : String
  food_name : String
  times : Int
  deriving DecidableEq, Repr

/-- A plan to feed pets (zoofeeding_algorithms.py, class `ZookeeperFeedPlan`): a wrapper
around a list of feeding parameters. -/
structure ZookeeperFeedPlan where
  feed_plan : List FeedPlanItem
  deriving DecidableEq, Repr

/-- Append an item to the feed plan (zoofeeding_algorithms.py,
`ZookeeperFeedPlan.add_to_feed_plan`). -/
def ZookeeperFeedPlan.add_to_feed_plan (plan : ZookeeperFeedPlan)
    (pet_name food_name : String) (times : Int) : ZookeeperFeedPlan :=
  ⟨plan.feed_plan ++ [⟨pet_name, food_name, times⟩]⟩

/-- State of the feeding algorithm (zoofeeding_algorithms.py, class
`ZooFeedingAlgorithm`): the mutable stockpile, the plan built so far, and the feedable
zoo computed by the constructor. -/
structure ZooFeedingAlgorithm where
  stockpile : FoodStockpile
  zookeeper_plan : ZookeeperFeedPlan
  zoo : Zoo
  deriving DecidableEq, Repr

/-- Constructor of the algorithm (zoofeeding_algorithms.py,
`ZooFeedingAlgorithm.__init__`): stores the stockpile, an empty plan, and
`ZooHelper(zoo).get_feedable_zoo()`. -/
def ZooFeedingAlgorithm.make (zoo : Zoo) (stockpile : FoodStockpile) : ZooFeedingAlgorithm :=
  ⟨stockpile, ⟨[]⟩, get_feedable_zoo zoo⟩

/-- The body of the per-pet loop of `ZooFeedingAlgorithm.__make_plan`
(zoofeeding_algorithms.py): choose the food (the single favorite, else the most
abundant), compute `times`, and when the stockpile has sufficient food subtract `times`
and append the plan item; otherwise leave the state unchanged. -/
def feed_one_pet (alg : ZooFeedingAlgorithm) (entry : String × PetMountPair) :
    ZooFeedingAlgorithm :=
  let pet := entry.2.pet
  let food_name :=
    if pet.has_just_1_favorite_food then pet.favorite_food
    else alg.stockpile.get_most_abundant_food
  let times := pet.required_food_items_until_mount food_name
  if alg.stockpile.has_sufficient food_name times then
    ⟨alg.stockpile.modify_stockpile food_name (-times),
      alg.zookeeper_plan.add_to_feed_plan entry.1 food_name times, alg.zoo⟩
  else alg

/-- `ZooFeedingAlgorithm.__make_plan` (zoofeeding_algorithms.py): iterate the given
sub-zoo in order, feeding each pet in turn. -/
def make_plan_for (alg : ZooFeedingAlgorithm) (zoo : Zoo) : ZooFeedingAlgorithm :=
  zoo.foldl feed_one_pet alg

/-- `ZooFeedingAlgorithm.make_plan` (zoofeeding_algorithms.py): filter the stored zoo
into the generation-1, quest and magic sub-zoos and process them in that order. The
Python method is annotated `-> None` and has no return statement, so its return value is
modelled by the first component `none`; the second component is the updated object
state. -/
def ZooFeedingAlgorithm.make_plan (alg : ZooFeedingAlgorithm) :
    Option ZookeeperFeedPlan × ZooFeedingAlgorithm :=
  let gen1_zoo := filter_on_pet Pet.is_generation1_pet alg.zoo
  let quest_zoo := filter_on_pet Pet.is_quest_pet alg.zoo
  let magic_zoo := filter_on_pet Pet.is_magic_hatching_pet alg.zoo
  (none, make_plan_for (make_plan_for (make_plan_for alg gen1_zoo) quest_zoo) magic_zoo)

/-- Modelled from the spec: hatchpotionmodels.py (class `HatchPotion`) is not in the
repository snapshot; per spec section 3 a potion is a validated name plus a non-negative
quantity. -/
structure HatchPotion where
  name : String
  quantity : Int
  deriving DecidableEq, Repr

namespace HatchPotion

/-- Modelled from the spec and test_hatchpotionmodels.py: construction fails (the Python
constructor raises `HatchPotionException`) when the name is not in the potion catalog or
the quantity is below 0. -/
def make (name : String) (quantity : Int) : Option HatchPotion :=
  if !(HatchPotionData.hatch_potion_names.contains name) then none
  else if quantity < 0 then none
  else some ⟨name, quantity⟩

/-- Modelled from the spec: a standard potion is one of the drop hatching potions. -/
def is_standard_hatch_potion (p : HatchPotion) : Bool :=
  PetData.drop_hatching_potions.contains p.name

/-- Modelled from the spec: a magic potion is one of the magic hatching potions. -/
def is_magic_hatch_potion (p : HatchPotion) : Bool :=
  HatchPotionData.magic_hatch_potion_names.contains p.name

/-- Modelled from the spec: a wacky potion is Veggie or Dessert. -/
def is_wacky_hatch_potion (p : HatchPotion) : Bool :=
  HatchPotionData.wacky_hatch_potion_names.contains p.name

end HatchPotion

/-- A Habitica egg (eggmodels.py, class `Egg`): a validated name plus a quantity. -/
structure Egg where
  name : String
  quantity : Int
  deriving DecidableEq, Repr

namespace Egg

/-- Checked constructor of `Egg` (eggmodels.py, `Egg.__init__`): `none` models the
constructor raising `EggException`, which happens exactly when the name is not a valid
egg name or the quantity is below 0. -/
def make (name : String) (quantity : Int) : Option Egg :=
  if !(EggData.egg_names.contains name) then none
  else if quantity < 0 then none
  else some ⟨name, quantity⟩

/-- True when this is a drop egg (eggmodels.py, `Egg.is_standard_egg`). -/
def is_standard_egg (e : Egg) : Bool := EggData.drop_egg_names.contains e.name

/-- True when this is a quest egg (eggmodels.py, `Egg.is_quest_egg`). -/
def is_quest_egg (e : Egg) : Bool := EggData.quest_egg_names.contains e.name

/-- True when the specified potion can hatch this egg (eggmodels.py,
`Egg.can_be_hatched_by`). -/
def can_be_hatched_by (e : Egg) (potion : HatchPotion) : Bool :=
  if potion.quantity == 0 || e.quantity == 0 then false
  else if e.is_quest_egg then potion.is_standard_hatch_potion
  else true

end Egg

namespace SpellData

/-- Warrior spell book (spellmodel.py, `SpellData.warrior_spells_single_arg`), as an
ordered association list from spell name to mana required. -/
def warrior_spells_single_arg : List (String × Int) :=
  [("defensiveStance", 25), ("valorousPresence", 20), ("intimidate", 15)]

/-- Mage spell book (spellmodel.py, `SpellData.mage_spells_single_arg`). -/
def mage_spells_single_arg : List (String × Int) := [("mpheal", 30), ("earth", 35)]

/-- Rogue spell book (spellmodel.py, `SpellData.rogue_spells_single_arg`). -/
def rogue_spells_single_arg : List (String × Int) := [("toolsOfTrade", 25), ("stealth", 45)]

/-- Healer spell book (spellmodel.py, `SpellData.healer_spells_single_arg`). -/
def healer_spells_single_arg : List (String × Int) :=
  [("heal", 15), ("brightness", 15), ("protectAura", 30), ("healAll", 25)]

/-- The two-level spell book (spellmodel.py, `SpellData.spell_book_single_arg`). -/
def spell_book_single_arg : List (String × List (String × Int)) :=
  [("warrior", warrior_spells_single_arg), ("wizard", mage_spells_single_arg),
    ("healer", healer_spells_single_arg), ("rogue", rogue_spells_single_arg)]

/-- All spell names that do not require a UUID (spellmodel.py,
`SpellData.single_arg_spells`). -/
def single_arg_spells : List String :=
  warrior_spells_single_arg.map Prod.fst ++ mage_spells_single_arg.map Prod.fst
    ++ rogue_spells_single_arg.map Prod.fst ++ healer_spells_single_arg.map Prod.fst

end SpellData

/-- A spell (spellmodel.py, dataclass `Spell`; the unsupported `target_id` is always
`None` and is omitted). -/
structure Spell where
  spell_name : String
  deriving DecidableEq, Repr

namespace Spell

/-- Checked constructor of `Spell` (spellmodel.py, `Spell.__post_init__`): `none` models
the `YouFoundABugRewardError` raised when the spell name is not a single-arg spell. -/
def make (spell_name : String) : Option Spell :=
  if SpellData.single_arg_spells.contains spell_name then some ⟨spell_name⟩ else none

/-- The Habitica class of the spell (spellmodel.py, `Spell.class_name`): keys of the
class spell books are tried in order; `none` models the final
`raise YouFoundABugRewardError(... not implemented yet)` branch. -/
def class_name (s : Spell) : Option String :=
  if (SpellData.warrior_spells_single_arg.lookup s.spell_name).isSome then some "warrior"
  else if (SpellData.mage_spells_single_arg.lookup s.spell_name).isSome then some "wizard"
  else if (SpellData.healer_spells_single_arg.lookup s.spell_name).isSome then some "healer"
  else if (SpellData.rogue_spells_single_arg.lookup s.spell_name).isSome then some "rogue"
  else none

/-- Mana needed to cast this spell (spellmodel.py, `Spell.mana_required`): the two-level
dictionary lookup `SpellData.spell_book_single_arg[self.class_name][self.spell_name]`,
with `none` modelling a `KeyError` (or a `class_name` failure). -/
def mana_required (s : Spell) : Option Int :=
  s.class_name.bind fun c =>
    (SpellData.spell_book_single_arg.lookup c).bind fun book => book.lookup s.spell_name

end Spell

/-- Binary tree of Nat keys with a Nat value at every node, used as a verification
certificate for category facts about the large pet-name catalogs. -/
inductive NatTree where
  | leaf : NatTree
  | node : NatTree → Nat → Nat → NatTree → NatTree

/-- Lookup of a key in a `NatTree` by binary search. No invariant of the tree is
assumed anywhere: `fun x => NatTree.find x t` is simply a function, and the category
theorems only use that it is one. -/
def NatTree.find (x : Nat) : NatTree → Option Nat
  | .leaf => none
  | .node l k t r =>
    if x < k then NatTree.find x l else if k < x then NatTree.find x r else some t

/-- Injective numeric code of a string (base-256 over the character codes, with a
leading 1). Injectivity is never needed: distinct codes imply distinct strings simply
because `strCode` is a function. -/
def strCode (s : String) : Nat := s.data.foldl (fun a c => a * 256 + c.toNat) 1

/-- Certificate tree assigning to the code of every catalog pet name its category tag:
0 generation-1, 1 magic-potion, 2 quest, 3 wacky, 4 rare. Generated offline; its only
role is to be a function that separates the five catalogs. -/
def petCatTree : NatTree :=
   (.node (.node (.node (.node (.node (.node (.node (.node (.node (.node (.node .leaf
    91038975129707876 2 .leaf) 91593060270630244 2 .leaf) 91883404354807140 0 (.node .leaf
    94425423698617700 2 .leaf)) 95245693732676964 2 (.node (.node .leaf 23305977632936522597 2
    .leaf) 23375200981997479268 2 (.node .leaf 23447823429012648805 2 .leaf)))
    23522151514561934181 0 (.node (.node (.node .leaf 23522151514646540151 1 .leaf)
    23522151514831676025 1 (.node .leaf 23522986292642211172 2 .leaf)) 24172908466577437541 2
    (.node (.node .leaf 24382897595296609125 2 .leaf) 24386819819207550308 2 (.node .leaf
    24522774487816627556 2 .leaf)))) 24747117663527003492 0 (.node (.node (.node (.node .leaf
    24887298833358415204 2 .leaf) 5948313413951081833828 2 (.node .leaf 5966330274104880489573
    2 .leaf)) 5966330274122060887141 2 (.node (.node .leaf 5984051451391085998949 2 .leaf)
    6002642797900368798821 2 (.node .leaf 6002642797917549196389 2 .leaf)))
    6021670787723760395634 1 (.node (.node (.node .leaf 6021670787732485466468 1 .leaf)
    6021670787740940264818 1 (.node .leaf 6021670787745034367609 1 .leaf))
    6021670787745319973748 1 (.node (.node .leaf 6021670787749447168884 1 .leaf)
    6021670787749513360243 1 (.node .leaf 6021670787753859378297 1 .leaf)))))
    6021670787800985855077 0 (.node (.node (.node (.node (.node .leaf 6021670787818166252645 0
    .leaf) 6021884490916137366373 2 (.node .leaf 6058129752370911012196 2 .leaf))
    6058562664140677211492 2 (.node (.node .leaf 6187901803282733036389 4 .leaf)
    6188264567516954715237 2 (.node .leaf 6188264567534135112805 2 .leaf)))
    6242021784469062640741 2 (.node (.node (.node .leaf 6242021784486243038309 2 .leaf)
    6243025596944523355492 2 (.node .leaf 6243025873716864185189 2 .leaf))
    6260968771272601396580 2 (.node (.node .leaf 6261258136297508332900 2 .leaf)
    6261259832856834893156 2 (.node .leaf 6261399995317788763492 2 .leaf))))
    6261399997486747247972 2 (.node (.node (.node (.node .leaf 6277830268880787960677 2 .leaf)
    6334754629316869514596 2 (.node .leaf 6335262121862644200293 0 .leaf))
    6335262121862728806263 1 (.node (.node .leaf 6335262121862913942137 1 .leaf)
    6371148501339485598565 2 (.node .leaf 1522398576522043040359780 2 .leaf)))
    1522472439222747360552292 2 (.node (.node (.node .leaf 1522768233971476680766309 2 .leaf)
    1527120874624089825895780 0 (.node .leaf 1527380550154344148071028 2 .leaf))
    1527380550157685515117934 2 (.node (.node .leaf 1527380550178576252692837 2 .leaf)
    1531917171556191146435685 2 (.node .leaf 1531917171556208326833253 2 .leaf))))))
    1532156687975231215789412 0 (.node (.node (.node (.node (.node (.node .leaf
    1536676556245989155238516 2 .leaf) 1536676556249330522285422 2 (.node .leaf
    1536676556270221259860325 2 .leaf)) 1541288617799351954204004 2 (.node (.node .leaf
    1541362841332366324163940 2 .leaf) 1541547721657317290111585 1 (.node .leaf
    1541547721658403866442341 1 .leaf))) 1541547721660547121640052 0 (.node (.node (.node .leaf
    1541547721662776143405420 1 .leaf) 1541547721663888488686958 0 (.node .leaf
    1541547721677052378902391 1 .leaf)) 1541547721677056859596146 1 (.node (.node .leaf
    1541547721677086974241657 1 .leaf) 1541547721677108432561524 1 (.node .leaf
    1541547721680338129742181 3 .leaf)))) 1541547721681420679475833 1 (.node (.node (.node
    (.node .leaf 1541547721681454938486128 1 .leaf) 1541547721684779226261861 0 (.node .leaf
    1541602429674604296496229 2 .leaf)) 1541602429674621476893797 2 (.node (.node .leaf
    1550881216606952950428517 2 .leaf) 1550992042020013097448293 2 (.node .leaf
    1574603583952511422326116 2 .leaf))) 1584195729267835149841012 2 (.node (.node (.node .leaf
    1584195729271176516887918 2 .leaf) 1584195729292067254462821 2 (.node .leaf
    1588512719195763054372196 2 .leaf)) 1597957576807574778770036 2 (.node (.node .leaf
    1597957576810916145816942 2 .leaf) 1597957576831806883391845 2 (.node .leaf
    1598214552817797710312293 2 .leaf))))) 1598214623671590362113125 2 (.node (.node (.node
    (.node (.node .leaf 1598214623671607542510693 2 .leaf) 1602808005445785688830821 2 (.node
    .leaf 1602882082892161864528741 2 .leaf)) 1602882517211349463954277 2 (.node (.node .leaf
    1602918398801353654760293 2 .leaf) 1602918399356607026787173 2 (.node .leaf
    1602955867335477911774564 2 .leaf))) 1607124548833554848638053 2 (.node (.node (.node .leaf
    1607124548833572029035621 2 .leaf) 1607771120568302820287844 2 (.node .leaf
    1621697185105118327042917 2 .leaf)) 1621827103196832820520306 1 (.node (.node .leaf
    1621827103196841545591140 1 .leaf) 1621827103196850000389490 1 (.node .leaf
    1621827103196854094492281 1 .leaf)))) 1621827103196854380098420 1 (.node (.node (.node
    (.node .leaf 1621827103196858507293556 1 .leaf) 1621827103196858573484915 1 (.node .leaf
    1621827103196862919502969 1 .leaf)) 1621827103196910045979749 0 (.node (.node .leaf
    1621827103196927226377317 0 .leaf) 1631014016342981443937381 2 (.node .leaf
    1631014016342998624334949 2 .leaf))) 388633927476424390743319908 2 (.node (.node (.node
    .leaf 389734035589643018063410021 2 .leaf) 389752870498409186539496804 0 (.node .leaf
    389752944441023324032693093 2 .leaf)) 389828667896698103406879845 2 (.node (.node .leaf
    389828667896698120587277413 2 .leaf) 390942943903766995160626021 0 (.node .leaf
    390942943903766995245231991 1 .leaf))))))) 390942943903766995430367865 1 (.node (.node
    (.node (.node (.node (.node (.node (.node .leaf 390976036281470306391057764 2 .leaf)
    392170795918368428230275700 2 .leaf) 392170795918371769597322606 2 (.node .leaf
    392170795918392660334897509 2 .leaf)) 392218148582938195608626532 2 (.node (.node .leaf
    392232112121659190973395813 0 .leaf) 392232112121659191058001783 1 (.node .leaf
    392232112121659191243137657 1 .leaf))) 394569886156634100007531365 2 (.node (.node (.node
    .leaf 394588887381085778717274981 2 .leaf) 394636216744268840872208739 1 (.node .leaf
    394636216745100063373881972 3 .leaf)) 394636216746505264467701623 1 (.node (.node .leaf
    394636216749036271967563639 1 .leaf) 394636216749325443509609842 1 (.node .leaf
    394636216750162189088289381 1 .leaf)))) 394636216750166617015607662 4 (.node (.node (.node
    (.node .leaf 394650221996682194645774964 2 .leaf) 394650221996685536012821870 2 (.node
    .leaf 394650221996706426750396773 2 .leaf)) 395859332948910247362323812 2 (.node (.node
    .leaf 397025591451380028440405093 2 .leaf) 397025591451380045620802661 2 (.node .leaf
    397053962757123426077467749 2 .leaf))) 397053962757123443257865317 2 (.node (.node (.node
    .leaf 401861276126673612649424228 0 .leaf) 403098517491842923846792037 2 (.node .leaf
    405459811705064691854370148 2 .leaf)) 406659256114115341650588517 2 (.node (.node .leaf
    406677830904515230837138788 2 .leaf) 406678071002114025027954020 2 (.node .leaf
    409142925521356286970651749 2 .leaf))))) 409142925521356304151049317 2 (.node (.node (.node
    (.node (.node .leaf 409142943659910627443700340 2 .leaf) 409142943659913968810747246 2
    (.node .leaf 409142943659934859548322149 2 .leaf)) 409143165617321326150837604 2 (.node
    (.node .leaf 410318849394121209471394917 2 .leaf) 410318849394121226651792485 2 (.node
    .leaf 410337813220393510450062437 2 .leaf))) 410337813220393527630460005 2 (.node (.node
    (.node .leaf 410337924406105535902999653 2 .leaf) 410337924406105553083397221 2 (.node
    .leaf 410347110093146608749339749 2 .leaf)) 410347110093146625929737317 2 (.node (.node
    .leaf 410347110235291471988221029 2 .leaf) 410347110235291489168618597 2 (.node .leaf
    410356702037882345145594725 2 .leaf)))) 411423884501373535994081908 2 (.node (.node (.node
    (.node .leaf 411423884501376877361128814 2 .leaf) 411423884501397768098703717 2 (.node
    .leaf 411589406215018840779223909 4 .leaf)) 411589406865485521724994405 2 (.node (.node
    .leaf 412765108874903298753324388 2 .leaf) 415154479386910364853691493 2 (.node .leaf
    415154479386910382034089061 2 .leaf))) 415187738418389236682027617 1 (.node (.node (.node
    .leaf 415187738418390323258358373 1 .leaf) 415187738418392466513556084 0 (.node .leaf
    415187738418394695535321452 1 .leaf)) 415187738418395807880602990 0 (.node (.node .leaf
    415187738418408971770818423 1 .leaf) 415187738418408976251512178 1 (.node .leaf
    415187738418409006366157689 1 .leaf)))))) 415187738418409027824477556 1 (.node (.node
    (.node (.node (.node (.node .leaf 415187738418412257521658213 3 .leaf)
    415187738418413340071391865 1 (.node .leaf 415187738418413374330402160 1 .leaf))
    415187738418416698618177893 0 (.node (.node .leaf 417539588183786744390709876 2 .leaf)
    417539588183790085757756782 2 (.node .leaf 417539588183810976495331685 2 .leaf)))
    99490285433964644030021202789 2 (.node (.node (.node .leaf 99771913110948612697363670117 2
    .leaf) 99771913110948612714544067685 2 (.node .leaf 99776734845998762564795916654 4 .leaf))
    99776734847592751753842488165 0 (.node (.node .leaf 99776734847592751753927094135 1 .leaf)
    99776734847592751754112230009 1 (.node .leaf 99776753776901971025500136549 2 .leaf))))
    99776753776901971042680534117 2 (.node (.node (.node (.node .leaf
    99796138981554697966903980660 2 .leaf) 99796138981554701308271027566 2 (.node .leaf
    99796138981554722199008602469 2 .leaf)) 100081393639364350757025506674 1 (.node (.node
    .leaf 100081393639364350765750577508 1 .leaf) 100081393639364350774205375858 1 (.node .leaf
    100081393639364350778299478649 1 .leaf))) 100081393639364350778585084788 1 (.node (.node
    (.node .leaf 100081393639364350782712279924 1 .leaf) 100081393639364350782778471283 1
    (.node .leaf 100081393639364350787124489337 1 .leaf)) 100081393639364350834250966117 0
    (.node (.node .leaf 100081393639364350851431363685 0 .leaf) 100089865288056398435842093925
    2 (.node .leaf 100098411735997635485095980910 2 .leaf))))) 100407846037232178075539698533 2
    (.node (.node (.node (.node (.node .leaf 100411420703144752885094573426 1 .leaf)
    100411420703144752893819644260 1 (.node .leaf 100411420703144752902274442610 1 .leaf))
    100411420703144752906368545401 1 (.node (.node .leaf 100411420703144752906654151540 1
    .leaf) 100411420703144752910781346676 1 (.node .leaf 100411420703144752910847538035 1
    .leaf))) 100411420703144752915193556089 1 (.node (.node (.node .leaf
    100411420703144752915360805473 4 .leaf) 100411420703144752962320032869 0 (.node .leaf
    100411420703144752979500430437 0 .leaf)) 100707634791219682674824474478 2 (.node (.node
    .leaf 101009890856098329675058734181 2 .leaf) 101009890856098329692239131749 2 (.node .leaf
    101014755169557959424753099877 2 .leaf)))) 101014755169557959441933497445 2 (.node (.node
    (.node (.node .leaf 101026871486891703918687515749 1 .leaf) 101026871487396944900334055287
    1 (.node .leaf 101026871487613114370924769140 1 .leaf)) 101026871487828153560915537774 0
    (.node (.node .leaf 101026871487830978236401675877 1 .leaf) 101339989234921023324486202213
    2 (.node .leaf 101633658873152399529320015204 2 .leaf))) 101638551411553270775486444148 2
    (.node (.node (.node .leaf 101638551411553274116853491054 2 .leaf)
    101638551411553295007591065957 2 (.node .leaf 101645814465823580570574484084 2 .leaf))
    101645814465823583911941530990 2 (.node (.node .leaf 101645814465823604802679105893 2
    .leaf) 102557325422717389323222803812 2 (.node .leaf 102876486686834455648937337198 4
    .leaf)))))))) 102876486688428444837983908709 0 (.node (.node (.node (.node (.node (.node
    (.node (.node (.node .leaf 102876486688428444838068514679 1 .leaf)
    102876486688428444838253650553 1 .leaf) 103176290831683422320072946533 4 (.node .leaf
    103193220477911788577909466213 2 .leaf)) 103193220477911788595089863781 2 (.node (.node
    .leaf 103797711796496561114450064229 2 .leaf) 103821851314379381777093652334 2 (.node .leaf
    104104750416470659663047845220 0 .leaf))) 104104769565213527535681365093 2 (.node (.node
    (.node .leaf 104104769565213527552861762661 2 .leaf) 104109524711555899094038836069 2
    (.node .leaf 104109586176541190406887535461 2 .leaf)) 104113217638968636853488546661 4
    (.node (.node .leaf 104723747754743758098586169198 2 .leaf) 104740588933467192959229588084
    2 (.node .leaf 104740588933467196300596634990 2 .leaf)))) 104740588933467217191334209893 2
    (.node (.node (.node (.node .leaf 104740650398034259494345732965 2 .leaf)
    105037979833257885829669479780 2 (.node .leaf 105041625444895013119419839092 2 .leaf))
    105041625444895016460786885998 2 (.node (.node .leaf 105041625444895037351524460901 2
    .leaf) 105046480184420722169958724212 2 (.node .leaf 105046480184420725511325771118 2
    .leaf))) 105046480184420746402063346021 2 (.node (.node (.node .leaf
    105046508647963000685910651508 2 .leaf) 105046508647963004027277698414 2 (.node .leaf
    105046508647963024918015273317 2 .leaf)) 105048860183845515334573716084 2 (.node (.node
    .leaf 105048860183845518675940762990 2 .leaf) 105048860183845539566678337893 2 (.node .leaf
    105048860220234600323727323764 2 .leaf))))) 105048860220234603665094370670 2 (.node (.node
    (.node (.node (.node .leaf 105048860220234624555831945573 2 .leaf)
    105051315721697880430402954341 2 (.node .leaf 105051315721697880447583351909 2 .leaf))
    105052581409085820265395545444 2 (.node (.node .leaf 105352328825419300056182449508 0
    .leaf) 105363199712641208789245257060 2 (.node .leaf 105366888157564293634729272421 2
    .leaf))) 105366888157564293651909669989 2 (.node (.node (.node .leaf
    105667867871975244480582349669 2 .leaf) 106279546723049036897287762548 2 (.node .leaf
    106279546723049040238654809454 2 .leaf)) 106279546723049061129392384357 2 (.node (.node
    .leaf 106288061035107640205202712931 1 .leaf) 106288061035108471427704386164 3 (.node .leaf
    106288061035109876628798205815 1 .leaf)))) 106288061035112407636298067831 1 (.node (.node
    (.node (.node .leaf 106288061035112696807840114034 1 .leaf) 106288061035113533553418793573
    1 (.node .leaf 106288061035113537981346111854 4 .leaf)) 25465795609883593716060738708836 2
    (.node (.node .leaf 25467653691034643511565041689956 2 .leaf)
    25469513071094948871758558618725 2 (.node .leaf 25469513071094948871775739016293 2 .leaf)))
    25541609756402844834019842290292 2 (.node (.node (.node .leaf
    25541609756402844837361209337198 2 .leaf) 25541609756402844858251946912101 2 (.node .leaf
    25542844120983744448979582215538 1 .leaf)) 25542844120983744448988307286372 1 (.node (.node
    .leaf 25542844120983744448996762084722 1 .leaf) 25542844120983744449000856187513 1 (.node
    .leaf 25542844120983744449001141793652 1 .leaf)))))) 25542844120983744449005268988788 1
    (.node (.node (.node (.node (.node (.node .leaf 25542844120983744449005335180147 1 .leaf)
    25542844120983744449009681198201 1 (.node .leaf 25542844120983744449044040933746 4 .leaf))
    25542844120983744449056807674981 0 (.node (.node .leaf 25542844120983744449073988072549 0
    .leaf) 25542848966886904566022777696884 2 (.node .leaf 25542848966886904569364144743790 2
    .leaf))) 25542848966886904590254882318693 2 (.node (.node (.node .leaf
    25547818860803165934905382298980 2 .leaf) 25620836771677273793833158537825 1 (.node .leaf
    25620836771677273794919734868581 1 .leaf)) 25620836771677273797062990066292 0 (.node (.node
    .leaf 25620836771677273799292011831660 1 .leaf) 25620836771677273800404357113198 0 (.node
    .leaf 25620836771677273813568247328631 1 .leaf)))) 25620836771677273813572728022386 1
    (.node (.node (.node (.node .leaf 25620836771677273813602842667897 1 .leaf)
    25620836771677273813624300987764 1 (.node .leaf 25620836771677273816853998168421 3 .leaf))
    25620836771677273817936547902073 1 (.node (.node .leaf 25620836771677273817970806912368 1
    .leaf) 25620836771677273821295094688101 0 (.node .leaf 25623005513742437999648706749541 2
    .leaf))) 25623005513742437999665887147109 2 (.node (.node (.node .leaf
    25701305281307275849896461365102 2 .leaf) 25704408585531437587411293529189 2 (.node .leaf
    25704408585531437587428473926757 2 .leaf)) 25705323700005056738618839626337 1 (.node (.node
    .leaf 25705323700005056739705415957093 1 .leaf) 25705323700005056741848671154804 0 (.node
    .leaf 25705323700005056744077692920172 1 .leaf))))) 25705323700005056745190038201710 0
    (.node (.node (.node (.node (.node .leaf 25705323700005056758353928417143 1 .leaf)
    25705323700005056758358409110898 1 (.node .leaf 25705323700005056758388523756409 1 .leaf))
    25705323700005056758409982076276 1 (.node (.node .leaf 25705323700005056761639679256933 3
    .leaf) 25705323700005056762722228990585 1 (.node .leaf 25705323700005056762756488000880 1
    .leaf))) 25705323700005056766080775776613 0 (.node (.node (.node .leaf
    25858532059161172380309778690676 2 .leaf) 25858532059161172383651145737582 2 (.node .leaf
    25858532059161172404541883312485 2 .leaf)) 25859777323406837596231536308852 2 (.node (.node
    .leaf 25859777323406837599572903355758 2 .leaf) 25859777323406837620463640930661 2 (.node
    .leaf 25861952138620119808544448079204 0 .leaf)))) 25862879100570272196444377150059 1
    (.node (.node (.node (.node .leaf 25862879100588429023539182002540 1 .leaf)
    25862879100903178296349357077349 1 (.node .leaf 25863796948775646845702621130606 2 .leaf))
    25943037244139781971141598471269 2 (.node (.node .leaf 25943037244139781971158778868837 2
    .leaf) 25943946346855041789810332296548 2 (.node .leaf 26018216671527014279505655198565 2
    .leaf))) 26254675308215651666744769082213 2 (.node (.node (.node .leaf
    26336380592237681878519785874802 1 .leaf) 26336380592237681878528510945636 1 (.node .leaf
    26336380592237681878536965743986 1 .leaf)) 26336380592237681878541059846777 1 (.node (.node
    .leaf 26336380592237681878541345452916 1 .leaf) 26336380592237681878545472648052 1 (.node
    .leaf 26336380592237681878545538839411 1 .leaf))))))) 26336380592237681878549884857465 1
    (.node (.node (.node (.node (.node (.node (.node .leaf 26336380592237681878597011334245 0
    .leaf) 26336380592237681878614191731813 0 (.node .leaf 26417464442345417859439566090868 2
    .leaf)) 26417464442345417862780933137774 2 (.node (.node .leaf
    26417464442345417883671670712677 2 .leaf) 26572214219903119645372347147365 2 (.node .leaf
    26572214219903119645389527544933 2 .leaf))) 26650816106616488873739979682661 0 (.node
    (.node (.node .leaf 26650816106616488873740064288631 1 .leaf)
    26650816106616488873740249424505 1 (.node .leaf 26650821008694663032629172204148 2 .leaf))
    26650821008694663035970539251054 2 (.node (.node .leaf 26650821008694663056861276825957 2
    .leaf) 26652038326158310168147072738405 2 (.node .leaf 26652038326158310168164253135973 2
    .leaf)))) 26652054061194544744236339782757 2 (.node (.node (.node (.node .leaf
    26652054061194544744253520180325 2 .leaf) 26813591955696985417547458572142 2 (.node .leaf
    26813606501896770430625638343781 2 .leaf)) 26813606501896770430642818741349 2 (.node (.node
    .leaf 26889722837314018772395118130021 2 .leaf) 26893136824754657373677899051636 2 (.node
    .leaf 26893136824754657377019266098542 2 .leaf))) 26893136824754657397910003673445 2 (.node
    (.node (.node .leaf 26893460840725969987940990940005 2 .leaf)
    26963075694683098592305265012590 2 (.node .leaf 26970196179305746825193391808878 4 .leaf))
    26970196179307340814382438380389 0 (.node (.node .leaf 26970196179307340814382522986359 1
    .leaf) 26970196179307340814382708122233 1 (.node .leaf 26972979126436149450046517113701 2
    .leaf))))) 26973923325707474754839018497380 4 (.node (.node (.node (.node (.node .leaf
    26973923368336459153985436480116 2 .leaf) 26973923368336459157326803527022 2 (.node .leaf
    26973923368336459178217541101925 2 .leaf)) 27050974175225662587102212220005 2 (.node (.node
    .leaf 27050974175225662587119392617573 2 .leaf) 27209743624987696626725758858611 4 (.node
    .leaf 27209743624987914773187296588901 1 .leaf))) 27209743624988420014168943128439 1 (.node
    (.node (.node .leaf 27209743624988636183639533842292 1 .leaf)
    27209743624988851222829524610926 0 (.node .leaf 27209743624988854047505010749029 1 .leaf))
    27363874451213730617786675523438 2 (.node (.node .leaf 6519243676130199991311548840768357 2
    .leaf) 6519719344904868738960650403935077 2 (.node .leaf 6520195346200306911153685749133940
    2 .leaf)))) 6520195346200306911157027116180846 2 (.node (.node (.node (.node .leaf
    6520195346200306911177917853755749 2 .leaf) 6538968094971838578938807676007009 1 (.node
    .leaf 6538968094971838578939894252337765 1 .leaf)) 6538968094971838578942037507535476 0
    (.node (.node .leaf 6538968094971838578944266529300844 1 .leaf)
    6538968094971838578945378874582382 0 (.node .leaf 6538968094971838578958542764797815 1
    .leaf))) 6538968094971838578958547245491570 1 (.node (.node (.node .leaf
    6538968094971838578958577360137081 1 .leaf) 6538968094971838578958598818456948 1 (.node
    .leaf 6538968094971838578961828515637605 3 .leaf)) 6538968094971838578962911065371257 1
    (.node (.node .leaf 6538968094971838578962945324381552 1 .leaf)
    6538968094971838578966269612157285 0 (.node .leaf 6540239764295169768496416389623662 2
    .leaf)))))) 6540241628365610479335777599845221 2 (.node (.node (.node (.node (.node (.node
    .leaf 6558934213549382091216903189326179 1 .leaf) 6558934213549382092048125690999412 3
    (.node .leaf 6558934213549382093453326784819063 1 .leaf))
    6558934213549382095984334284681079 1 (.node (.node .leaf 6558934213549382096273505826727282
    1 .leaf) 6558934213549382097110251405406821 1 (.node .leaf
    6559489411518064127893563670622836 2 .leaf))) 6559489411518064127896905037669742 2 (.node
    (.node (.node .leaf 6559489411518064127917795775244645 2 .leaf)
    6560524038002078906616085193319780 2 (.node .leaf 6580328597896048022360785886212724 2
    .leaf)) 6580328597896048022364127253259630 2 (.node (.node .leaf
    6580328597896048022385017990834533 2 .leaf) 6580562867201294525082037547985251 1 (.node
    .leaf 6580562867201294525913260049658484 3 .leaf)))) 6580562867201294527318461143478135 1
    (.node (.node (.node (.node .leaf 6580562867201294529849468643340151 1 .leaf)
    6580562867201294530138640185386354 1 (.node .leaf 6580562867201294530975385764065893 1
    .leaf)) 6620659747486750670987378439582565 0 (.node (.node .leaf
    6620659747486750670987378524188535 1 .leaf) 6620659747486750670987378709324409 1 (.node
    .leaf 6620897049741488825923199259992422 1 .leaf))) 6620897049746043797546241764717164 1
    (.node (.node (.node .leaf 6620897049798046470645727601061477 1 .leaf)
    6620897049812028885614535190867572 1 (.node .leaf 6620897049821658299075591398388858 1
    .leaf)) 6641417534499784184595743951385204 2 (.node (.node .leaf
    6641417534499784184599085318432110 2 .leaf) 6641417534499784184619976056007013 2 (.node
    .leaf 6641650264794890698191444799222629 2 .leaf))))) 6660663467910915655553520861537381 2
    (.node (.node (.node (.node (.node .leaf 6660663467910915655553538041934949 2 .leaf)
    6660984105307556236079676716773230 2 (.node .leaf 6661460096832215258810566502018926 2
    .leaf)) 6721196878903206826686734015751269 2 (.node (.node .leaf
    6721196878903206826686751196148837 2 .leaf) 6742113431612846560901099812778593 1 (.node
    .leaf 6742113431612846560902186389109349 1 .leaf))) 6742113431612846560904329644307060 0
    (.node (.node (.node .leaf 6742113431612846560906558666072428 1 .leaf)
    6742113431612846560907671011353966 0 (.node .leaf 6742113431612846560920834901569399 1
    .leaf)) 6742113431612846560920839382263154 1 (.node (.node .leaf
    6742113431612846560920869496908665 1 .leaf) 6742113431612846560920890955228532 1 (.node
    .leaf 6742113431612846560924120652409189 3 .leaf)))) 6742113431612846560925203202142841 1
    (.node (.node (.node (.node .leaf 6742113431612846560925237461153136 1 .leaf)
    6742113431612846560928561748928869 0 (.node .leaf 6783625578536921907943558719104356 2
    .leaf)) 6802486840295198629198815612465780 2 (.node (.node .leaf
    6802486840295198629202156979512686 2 .leaf) 6802486840295198629223047717087589 2 (.node
    .leaf 6822608923293821151677430704006514 1 .leaf))) 6822608923293821151677439429077348 1
    (.node (.node (.node .leaf 6822608923293821151677447883875698 1 .leaf)
    6822608923293821151677451977978489 1 (.node .leaf 6822608923293821151677452263584628 1
    .leaf)) 6822608923293821151677456390779764 1 (.node (.node .leaf
    6822608923293821151677456456971123 1 .leaf) 6822608923293821151677460802989177 1 (.node
    .leaf 6822608923293821151677507929465957 0 .leaf)))))))))
    6822608923293821151677525109863525 0 (.node (.node (.node (.node (.node (.node (.node
    (.node (.node (.node .leaf 6822921811496527403029145363772020 2 .leaf)
    6822921811496527403032486730818926 2 .leaf) 6822921811496527403053377468393829 2 (.node
    .leaf 6822925839665803454507997727126132 2 .leaf)) 6822925839665803454511339094173038 2
    (.node (.node .leaf 6822925839665803454532229831747941 2 .leaf)
    6864279236343707040313467397762926 2 (.node .leaf 6864283264485573230223658158748276 2
    .leaf))) 6864283264485573230226999525795182 2 (.node (.node (.node .leaf
    6864283264485573230247890263370085 2 .leaf) 6883452455229412709196188779439460 2 (.node
    .leaf 6883769020917722712896141136127332 2 .leaf)) 6883769046352388805733223371990117 2
    (.node (.node .leaf 6883769046352388805733240552387685 2 .leaf)
    6884007965156640662331695687823214 2 (.node .leaf 6884326125366197530667812063047534 2
    .leaf)))) 6884327990752904295489237570318190 2 (.node (.node (.node (.node .leaf
    6884482101008500775504020170370926 2 .leaf) 6884482103393295849353191003287406 2 (.node
    .leaf 6884725975225848316912966811346021 2 .leaf)) 6884725975225848316912983991743589 2
    (.node (.node .leaf 6904370221902679248481900130624882 1 .leaf)
    6904370221902679248481908855695716 1 (.node .leaf 6904370221902679248481917310494066 1
    .leaf))) 6904370221902679248481921404596857 1 (.node (.node (.node .leaf
    6904370221902679248481921690202996 1 .leaf) 6904370221902679248481925817398132 1 (.node
    .leaf 6904370221902679248481925883589491 1 .leaf)) 6904370221902679248481930229607545 1
    (.node (.node .leaf 6904370221902679248481977356084325 0 .leaf)
    6904370221902679248481994536481893 0 (.node .leaf 6905082656367654259211981511812197 2
    .leaf))))) 6905082656367654259211998692209765 2 (.node (.node (.node (.node (.node .leaf
    6925049388857769622281661071061620 2 .leaf) 6925049388857769622285002438108526 2 (.node
    .leaf 6925049388857769622305893175683429 2 .leaf)) 6965136374041742764638047919435630 2
    (.node (.node .leaf 6965694367996832177929208299876971 1 .leaf)
    6965694367996850334756303104729452 1 (.node .leaf 6965694367997165084029113279804261 1
    .leaf))) 1668926381089331197775756576367404133 2 (.node (.node (.node .leaf
    1668926381089331197775756593547801701 2 .leaf) 1669048152295646397173926576538084453 2
    (.node .leaf 1669048152295646397173926593718482021 2 .leaf))
    1673894936995616840124861781449666414 2 (.node (.node .leaf
    1673975832312790676208330379661437283 1 .leaf) 1673975832312790676209161602163110516 3
    (.node .leaf 1673975832312790676210566803256930167 1 .leaf))))
    1673975832312790676213097810756792183 1 (.node (.node (.node (.node .leaf
    1673975832312790676213386982298838386 1 .leaf) 1673975832312790676214223727877517925 1
    (.node .leaf 1673976149893900178721406156256079726 2 .leaf))
    1674301856861596282709959138691081317 2 (.node (.node .leaf
    1674301856861596282709959155871478885 2 .leaf) 1679087158668641815710407871869580389 1
    (.node .leaf 1679087158668641816215648853516119927 1 .leaf)))
    1679087158668641816431818324106833780 1 (.node (.node (.node .leaf
    1679087158668641816646857514097602414 0 .leaf) 1679087158668641816649682189583740517 1
    (.node .leaf 1679494153728532200093717809221170021 2 .leaf))
    1684624094003531398779882267686302821 1 (.node (.node .leaf
    1684624094003531399285123249332842359 1 .leaf) 1684624094003531399501292719923556212 1
    (.node .leaf 1684624094003531399716331909914324846 0 .leaf))))))
    1684624094003531399719156585400462949 1 (.node (.node (.node (.node (.node (.node .leaf
    1694664757029186594198519053385232238 2 .leaf) 1694746366666790509789167360650014574 2
    (.node .leaf 1694888895356608171772768876438381938 1 .leaf))
    1694888895356608171772768885163452772 1 (.node (.node .leaf
    1694888895356608171772768893618251122 1 .leaf) 1694888895356608171772768897712353913 1
    (.node .leaf 1694888895356608171772768897997960052 1 .leaf)))
    1694888895356608171772768902125155188 1 (.node (.node (.node .leaf
    1694888895356608171772768902191346547 1 .leaf) 1694888895356608171772768906537364601 1
    (.node .leaf 1694888895356608171772768953663841381 0 .leaf))
    1694888895356608171772768970844238949 0 (.node (.node .leaf
    1694949644754344634963144692433185893 1 .leaf) 1694949644755553320976778528975775085 1
    (.node .leaf 1694949644755576731120028761631189108 1 .leaf))))
    1700262467787492018737009941731697765 2 (.node (.node (.node (.node .leaf
    1700262467787492018737009958912095333 2 .leaf) 1705129847785194407821684835296309876 2
    (.node .leaf 1705129847785194407821688176663356782 2 .leaf))
    1705129847785194407821709067400931685 2 (.node (.node .leaf
    1720626400999220947631787402775065204 2 .leaf) 1720626400999220947631790744142112110 2
    (.node .leaf 1720626400999220947631811634879687013 2 .leaf)))
    1725981038492888719590677166674962787 1 (.node (.node (.node .leaf
    1725981038492888719591508389176636020 3 .leaf) 1725981038492888719592913590270455671 1
    (.node .leaf 1725981038492888719595444597770317687 1 .leaf))
    1725981038492888719595733769312363890 1 (.node (.node .leaf
    1725981038492888719596570514891043429 1 .leaf) 1731010440740460535523170540859781989 4
    (.node .leaf 1731294949693549305918768800444215150 2 .leaf)))))
    1736608148105452008433551031822021477 2 (.node (.node (.node (.node (.node .leaf
    1746587884363218214829422294854496865 1 .leaf) 1746587884363218214829423381430827621 1
    (.node .leaf 1746587884363218214829425524686025332 0 .leaf))
    1746587884363218214829427753707790700 1 (.node (.node .leaf
    1746587884363218214829428866053072238 0 .leaf) 1746587884363218214829442029943287671 1
    (.node .leaf 1746587884363218214829442034423981426 1 .leaf)))
    1746587884363218214829442064538626937 1 (.node (.node (.node .leaf
    1746587884363218214829442085996946804 1 .leaf) 1746587884363218214829445315694127461 3
    (.node .leaf 1746587884363218214829446398243861113 1 .leaf))
    1746587884363218214829446432502871408 1 (.node (.node .leaf
    1746587884363218214829449756790647141 0 .leaf) 1746588205625813437588922826684133230 2
    (.node .leaf 1746972541442095536413031795648521572 2 .leaf))))
    1762163828538729653554224327267808101 2 (.node (.node (.node (.node .leaf
    1762244869354937014501412130579903333 2 .leaf) 1762244875866211534267688677972210292 2
    (.node .leaf 1762244875866211534267692019339257198 2 .leaf))
    1762244875866211534267712910076832101 2 (.node (.node .leaf
    1762468614947121226723892189361106798 2 .leaf) 1762489849657817169129702998447321716 2
    (.node .leaf 1762489849657817169129706339814368622 2 .leaf)))
    1762489849657817169129727230551943525 2 (.node (.node (.node .leaf
    1767518776807085887611366468068799073 1 .leaf) 1767518776807085887611367554645129829 1
    (.node .leaf 1767518776807085887611369697900327540 0 .leaf))
    1767518776807085887611371926922092908 1 (.node (.node .leaf
    1767518776807085887611373039267374446 0 .leaf) 1767518776807085887611386203157589879 1
    (.node .leaf 1767518776807085887611386207638283634 1 .leaf)))))))
    1767518776807085887611386237752929145 1 (.node (.node (.node (.node (.node (.node (.node
    (.node .leaf 1767518776807085887611386259211249012 1 .leaf)
    1767518776807085887611389488908429669 3 .leaf) 1767518776807085887611390571458163321 1
    (.node .leaf 1767518776807085887611390605717173616 1 .leaf))
    1767518776807085887611393930004949349 0 (.node (.node .leaf
    1767701160030119490358250761766662772 2 .leaf) 1767701160030119490358254103133709678 2
    (.node .leaf 1767701160030119490358274993871284581 2 .leaf)))
    1767701476315379309481655971274188132 2 (.node (.node (.node .leaf
    1767763041867298188198126962273972078 2 .leaf) 1783217758207184536693510763478081894 1
    (.node .leaf 1783217758207189091665133805982806636 1 .leaf))
    1783217758207241094338233291819150949 1 (.node (.node .leaf
    1783217758207255076753202099408957044 1 .leaf) 1783217758207264706166663155616478330 1
    (.node .leaf 427245153558868786630593667044798198388 2 .leaf))))
    427245153558868786630593670386165245294 2 (.node (.node (.node (.node .leaf
    427245153558868786630593691276902820197 2 .leaf) 427276326987685477676525187088492360308 2
    (.node .leaf 427276326987685477676525190429859407214 2 .leaf))
    427276326987685477676525211320596982117 2 (.node (.node .leaf
    427307522208583313730450486652354981742 2 .leaf) 428537813072074413109691457848730023013 1
    (.node .leaf 428537813072074413110196698830376562551 1 .leaf)))
    428537813072074413110412868300967276404 1 (.node (.node (.node .leaf
    428537813072074413110627907490958045038 0 .leaf) 428537813072074413110630732166444183141 1
    (.node .leaf 428621275356568648373749522999659557492 2 .leaf))
    428621275356568648373749526341026604398 2 (.node (.node .leaf
    428621275356568648373749547231764179301 2 .leaf) 429846312619172304747860408458985697899 1
    (.node .leaf 429846312619172304766017235553790550380 1 .leaf)))))
    429846312619172305080766508363965625189 1 (.node (.node (.node (.node (.node .leaf
    429882698073247850686715126115051269998 2 .leaf) 429950503354504243223991759233750230117 2
    (.node .leaf 429950503354504243223991759250930627685 2 .leaf))
    431248414991715403194519001235950169966 2 (.node (.node .leaf
    431263768064904038013645853788066640491 1 .leaf) 431263768064904038031802680882871492972 1
    (.node .leaf 431263768064904038346551953693046567781 1 .leaf)))
    433891557211291691973828832402854605409 1 (.node (.node (.node .leaf
    433891557211291691973828833489430936165 1 .leaf) 433891557211291691973828835632686133876 0
    (.node .leaf 433891557211291691973828837861707899244 1 .leaf))
    433891557211291691973828838974053180782 0 (.node (.node .leaf
    433891557211291691973828852137943396215 1 .leaf) 433891557211291691973828852142424089970 1
    (.node .leaf 433891557211291691973828852172538735481 1 .leaf))))
    433891557211291691973828852193997055348 1 (.node (.node (.node (.node .leaf
    433891557211291691973828855423694236005 3 .leaf) 433891557211291691973828856506243969657 1
    (.node .leaf 433891557211291691973828856540502979952 1 .leaf))
    433891557211291691973828859864790755685 0 (.node (.node .leaf
    433907109057427643000412830481822872435 1 .leaf) 433907109057722715439241617403800416877 1
    (.node .leaf 435251939540977856322749212995093819246 2 .leaf)))
    435267191753597956796674528578057368180 2 (.node (.node (.node .leaf
    435267191753597956796674531919424415086 2 .leaf) 435267191753597956796674552810161989989 2
    (.node .leaf 441851145854179512215572235324192552037 1 .leaf))
    441851145854179512216077476305839091575 1 (.node (.node .leaf
    441851145854179512216293645776429805428 1 .leaf) 441851145854179512216508684966420574062 0
    (.node .leaf 441851145854179512216511509641906712165 1 .leaf))))))
    444571685914995714158989064219568202853 2 (.node (.node (.node (.node (.node (.node .leaf
    444571685914995714158989064236748600421 2 .leaf) 445807777565586137364256117375670447982 2
    (.node .leaf 447126498396983862996332103097354840419 1 .leaf))
    447126498396983862996332934319856513652 3 (.node (.node .leaf
    447126498396983862996334339520950333303 1 .leaf) 447126498396983862996336870528450195319 1
    (.node .leaf 447126498396983862996337159699992241522 1 .leaf)))
    447126498396983862996337996445570921061 1 (.node (.node (.node .leaf
    447147003838236419886000607957276192622 2 .leaf) 447147267828338095195718676442051276654 2
    (.node .leaf 447224970609176457321736139685752828773 2 .leaf))
    449857668021326527217020198488840105838 2 (.node (.node .leaf
    451113940105914791309881427853689578597 2 .leaf) 451113940105914791309881427870869976165 2
    (.node .leaf 451134686554863875712361505501585957989 2 .leaf))))
    451134686554863875712361505518766355557 2 (.node (.node (.node (.node .leaf
    452484806862613987228509811440216205667 1 .leaf) 452484806862613987228510642662717878900 3
    (.node .leaf 452484806862613987228512047863811698551 1 .leaf))
    452484806862613987228514578871311560567 1 (.node (.node .leaf
    452484806862613987228514868042853606770 1 .leaf) 452484806862613987228515704788432286309 1
    (.node .leaf 452531577936737103227303928645923468133 2 .leaf)))
    453840036748182789966933477350207418222 2 (.node (.node (.node .leaf
    455122595866482972917919998253848487268 2 .leaf) 456503746101059764889065561132264090725 1
    (.node .leaf 456503746101060973575079194968806679917 1 .leaf))
    456503746101060996985222445201462093940 1 (.node (.node .leaf
    109705680146451049756007009202535259009643 1 .leaf)
    109705680146451049756025166029630063862124 1 (.node .leaf
    109705680146451049756339915302440238936933 1 .leaf)))))
    110040656030508110010951408198939048239462 1 (.node (.node (.node (.node (.node .leaf
    110040656030508110015506379821981552964204 1 .leaf)
    110040656030508110067509052921467389308517 1 (.node .leaf
    110040656030508110081491467890274979114612 1 .leaf))
    110040656030508110091120881351331186635898 1 (.node (.node .leaf
    110067328858753086265341890347334801650292 2 .leaf)
    110067328858753086265341890350676168697198 2 (.node .leaf
    110067328858753086265341890371566906272101 2 .leaf)))
    110403524624615433726992482203183769543014 1 (.node (.node (.node .leaf
    110403524624615433731547453826226274267756 1 .leaf)
    110403524624615433783550126925712110612069 1 (.node .leaf
    110403524624615433797532541894519700418164 1 .leaf))
    110403524624615433807161955355575907939450 1 (.node (.node .leaf
    111076238646090673145300181090745382627683 1 .leaf)
    111076238646090673145300181921967884300916 3 (.node .leaf
    111076238646090673145300183327168978120567 1 .leaf))))
    111076238646090673145300185858176477982583 1 (.node (.node (.node (.node .leaf
    111076238646090673145300186147348020028786 1 .leaf)
    111076238646090673145300186984093598708325 1 (.node .leaf
    111080219918695612084844700243467728941669 1 .leaf))
    111747389704450500711003019903376077123438 2 (.node (.node .leaf
    112422632413390315808034502587463309030245 4 .leaf)
    112422632413390315808034502587463393636215 4 (.node .leaf
    112762971815884944023997901765663786299246 2 .leaf)))
    113113893338669955127112488236253666439787 1 (.node (.node (.node .leaf
    113113893338669955127130645063348471292268 1 .leaf)
    113113893338669955127445394336158646367077 1 (.node .leaf
    113443536814032246701815199130882460971877 4 .leaf))
    113810351594238902824701200423704202670708 2 (.node (.node .leaf
    113810351594238902824701200427045569717614 2 .leaf)
    113810351594238902824701200447936307292517 2 (.node .leaf
    114464383589627868927061377273578241225829 1 .leaf))))))))
    114464383589627868927061882514559887765367 1 (.node (.node (.node (.node (.node (.node
    (.node (.node (.node .leaf 114464383589627868927062098684030478479220 1 .leaf)
    114464383589627868927062313723220469247854 0 .leaf)
    114464383589627868927062316547895955385957 1 (.node .leaf
    114489592475949173074364451759625854870629 2 .leaf))
    114489592475949173074364451759643035268197 2 (.node (.node .leaf
    115485168667114186575329645514039274861172 2 .leaf)
    115485168667114186575329645517380641908078 2 (.node .leaf
    115485168667114186575329645538271379482981 2 .leaf)))
    115490479758045152182364545391900747985524 2 (.node (.node (.node .leaf
    115490479758045152182364545395242115032430 2 .leaf)
    115490479758045152182364545416132852607333 2 (.node .leaf
    115490480184768039109768327736983886786414 2 .leaf))
    115506534787174705996085298243640789069678 2 (.node (.node .leaf
    115836110556829180730498870609350750729317 1 .leaf)
    115836110556829180730499375850332397268855 1 (.node .leaf
    115836110556829180730499592019802987982708 1 .leaf))))
    115836110556829180730499807058992978751342 0 (.node (.node (.node (.node .leaf
    115836110556829180730499809883668464889445 1 .leaf)
    115848063223733910920119404460537124515694 2 (.node .leaf
    115848083951804698426189805733429538546789 2 .leaf))
    115848083951804698426189805733446718944357 2 (.node (.node .leaf
    116511384541819641066987519552984944046949 2 .leaf)
    116864959001871615228050631439078534509427 1 (.node .leaf
    116864959001871910300489460226000512053869 1 .leaf)))
    27999938383634024800622587645985291842645870 2 (.node (.node (.node .leaf
    28001981365464955465008755743568832438234990 2 .leaf)
    28084654117491468737533293499482465016045926 1 (.node .leaf
    28084654117491468737537848471105507520770668 1 .leaf))
    28084654117491468737589851144204993357114981 1 (.node (.node .leaf
    28084654117491468737603833559173800946921076 1 .leaf)
    28084654117491468737613462972634857154442362 1 (.node .leaf
    28090123901768082939822049821843085872885614 2 .leaf)))))
    28170407943810076183327056025734078224428133 1 (.node (.node (.node (.node (.node .leaf
    28170407943810076184535742039367914767017325 1 .leaf)
    28170407943810076184559152182618147422431348 1 (.node .leaf
    28263302303901551054633570970820726878137445 1 .leaf))
    28263302303901551055842256984454563420726637 1 (.node (.node .leaf
    28263302303901551055865667127704796076140660 1 .leaf)
    28435517093399212325196846718111473354765413 1 (.node .leaf
    28435517093399212325196847223352455001304951 1 .leaf)))
    28435517093399212325196847439521925592018804 1 (.node (.node (.node .leaf
    28435517093399212325196847654561115582787438 0 .leaf)
    28435517093399212325196847657385791068925541 1 (.node .leaf
    28525670678763795696626862987428964794134382 2 .leaf))
    28608708891476378880690954541250247746024812 4 (.node (.node .leaf
    28780193897827920846856832662390628703761268 4 .leaf)
    28957156694699508512536296132114377318162790 1 (.node .leaf
    28957156694699508512540851103737419822887532 1 .leaf))))
    28957156694699508512592853776836905659231845 1 (.node (.node (.node (.node .leaf
    28957156694699508512606836191805713249037940 1 .leaf)
    28957156694699508512616465605266769456559226 1 (.node .leaf
    29302882198944734445327638578029290126930539 1 .leaf))
    29302882198944734445327656734856384931783020 1 (.node (.node .leaf
    29302882198944734445327971484129195106857829 1 .leaf)
    29309335673842988307037299650447713589621364 2 (.node .leaf
    29309335673842988307037299650451054956668270 2 .leaf)))
    29309335673842988307037299650471945694243173 2 (.node (.node (.node .leaf
    29654044302548270267007636871987052559823467 1 .leaf)
    29654044302548270267007655028814147364675948 1 (.node .leaf
    29654044302548270267007969778086957539750757 1 .leaf))
    29657109491662002797104590267741456610718324 2 (.node (.node .leaf
    29657109491662002797104590267744797977765230 2 .leaf)
    29657109491662002797104590267765688715340133 2 (.node .leaf
    29826914442705828113148805005564218806723685 2 .leaf))))))
    29826914442705828113148805005564235987121253 2 (.node (.node (.node (.node (.node (.node
    .leaf 29917429504479127633857700664044225908011621 1 .leaf)
    7189671454077815996829046631394316725982882917 1 (.node .leaf
    7189671454077815996830255317407950562525472109 1 .leaf))
    7189671454077815996830278727551200795180886132 1 (.node (.node .leaf
    7211624433615379503247142792435713244380885875 1 .leaf)
    7211624433615379503542215231264500166358430317 1 (.node .leaf
    7212850716630884527581841726870445986075669861 2 .leaf)))
    7212850716630884527581841726870445986310352491 2 (.node (.node (.node .leaf
    7213372464087242261485446126885470958066626414 2 .leaf)
    7235405389798797070301610618377895299730469747 1 (.node .leaf
    7235405389798797070596683057206682221708014189 1 .leaf))
    7256749864222620956876324758226003539499185509 2 (.node (.node .leaf
    7256749864222620956876324758226003539733868139 2 .leaf)
    7279492375910198355250392685832530439193064043 1 (.node .leaf
    7279492375910198355250392703989357533997916524 1 .leaf))))
    7279492375910198355250393018738630344172991333 1 (.node (.node (.node (.node .leaf
    7279753292508843317944912345062998502361822565 0 .leaf)
    7279753292508843317944912345062998502596505195 0 (.node .leaf
    7302315804097926346729255576202635889275921253 4 .leaf))
    7302315804097926346742539592039191503197727845 4 (.node (.node .leaf
    7413032113843074179229815305348086275324800101 1 .leaf)
    7413032113843074179231023991361720111867389293 1 (.node .leaf
    7413032113843074179231047401504970344522803316 1 .leaf)))
    7458675202080040735519617872050416023340609390 2 (.node (.node (.node .leaf
    7481152814194669956930345240217564835994170725 2 .leaf)
    7481152814194669956930345240217564836228853355 2 (.node .leaf
    7501537842929852018003870975119131711203795302 1 .leaf))
    7501537842929852018003875530090754753708520044 1 (.node (.node .leaf
    7501537842929852018003927532763854239544864357 1 .leaf)
    7501537842929852018003941515178823047134670452 1 (.node .leaf
    7501537842929852018003951144592284103342191738 1 .leaf)))))
    7546141301758698468436434376243313656090883429 2 (.node (.node (.node (.node (.node .leaf
    7546141301758698468436434376243313656325566059 2 .leaf)
    7568436013767995331400803649490615314414858094 2 (.node .leaf
    7568784081423247093423442847886144817092390766 2 .leaf))
    7591435341452357188353950538372318894024384870 1 (.node (.node .leaf
    7591435341452357188353955093343941936529109612 1 .leaf)
    7591435341452357188354007096017041422365453925 1 (.node .leaf
    7591435341452357188354021078432010229955260020 1 .leaf)))
    7591435341452357188354030707845471286162781306 1 (.node (.node (.node .leaf
    7635690097332691996966094081424423509264003700 2 .leaf)
    7635690097332691996966094081424426850631050606 2 (.node .leaf
    7635690097332691996966094081424447741368625509 2 .leaf))
    1840555892243920895188551354086792871070545310579 1 (.node (.node .leaf
    1840555892243920895188846426525621657992522855021 1 .leaf)
    1846175855005537152825404031602558230682580382309 1 (.node .leaf
    1851974222205209939834540745121020143998325257573 2 .leaf))))
    1851974222205209939834540745121020143998559940203 2 (.node (.node (.node (.node .leaf
    1852263779788492049991347795043756836852073853541 1 .leaf)
    1863550048233010778944100523072271425872133972326 1 (.node .leaf
    1863550048233010778944100527627243048914638697068 1 .leaf))
    1863550048233010778944100579629916148400475041381 1 (.node (.node .leaf
    1863550048233010778944100593612331117208064847476 1 .leaf)
    1863550048233010778944100603241744578264272368762 1 (.node .leaf
    1863682980814191798455990365356034877366135977317 2 .leaf)))
    1863682980814191798455990365356034877366370659947 2 (.node (.node (.node .leaf
    1897736221143826989883148134618957875702076109683 1 .leaf)
    1897736221143826989883443207057786662624053654125 1 (.node .leaf
    1920393687790042116609011493126024523750046723173 1 .leaf))
    1920393687790042116609012701812038157586589312365 1 (.node (.node .leaf
    1920393687790042116609012725222181407819244726388 1 .leaf)
    1920816622720974081689996469892823895206538801006 2 (.node .leaf
    1932122923842180567438157579101497098163117127013 2 .leaf)))))))
    1932122923842180567438157579101497098163351809643 2 (.node (.node (.node (.node (.node
    (.node (.node .leaf 1942894362421313491908212649298855158448816682341 2 .leaf)
    1942894362421313491908212649298855158449051364971 2 (.node .leaf
    1943407447411803440218631861318840442552117652581 1 .leaf))
    1943407447411803440218633070004854076388660241773 1 (.node (.node .leaf
    1943407447411803440218633093414997326621315655796 1 .leaf)
    1943608327645561015311046427787786637837149171566 2 (.node .leaf
    1960668660005461316296850800788709486525890196837 0 .leaf)))
    1960668660005461316296850800788709486526124879467 0 (.node (.node (.node .leaf
    1971774956510304092550323175938882245205986932069 2 .leaf)
    1971774956510304092550323175938882245206221614699 2 (.node .leaf
    471182308414443749168263282122957990634180673106533 1 .leaf))
    471273941846294751549801858982383142110353580389733 2 (.node (.node .leaf
    471273941846294751549801858982383142110353815072363 2 .leaf)
    477068812347650759409689754429997011828948172041317 1 (.node .leaf
    477068812347650759409689755638683025462784714630509 1 .leaf))))
    477068812347650759409689755662093168713017370044532 1 (.node (.node (.node (.node .leaf
    479974488553342428240290561982197862689213457921381 2 .leaf)
    479974488553342428240290561982197862689213692604011 2 (.node .leaf
    480008787357391802464753599222139148302489960084837 2 .leaf))
    480008787357391802464753599222139148302490194767467 2 (.node (.node .leaf
    482851529551908649510577058720182464739201545956453 4 .leaf)
    485820472612819709410080057939192231819852557677157 1 (.node .leaf
    491620784074250781851907257656712125869230888416115 1 .leaf)))
    491620784074250781851907552729150954656152865960557 1 (.node (.node (.node .leaf
    494623446575432746933593273343264637226611064468837 2 .leaf)
    494623446575432746933593273343264637226611299151467 2 (.node .leaf
    496045051307119489781710530455898658872479103874405 2 .leaf))
    496045051307119489781710530455898658872479338557035 2 (.node (.node .leaf
    496067977166338760680251679249177016726619098477925 2 .leaf)
    496067977166338760680251679249177016726619333160555 2 (.node .leaf
    496068111581616800487075070380244072956812073923941 2 .leaf)))))
    496068111581616800487075070380244072956812308606571 2 (.node (.node (.node (.node (.node
    .leaf 496079216395851652955720595908934455742709841556837 2 .leaf)
    496079216395851652955720595908934455742710076239467 2 (.node .leaf
    496079216567694248250794519957938632495752788342117 2 .leaf))
    496079216567694248250794519957938632495753023024747 2 (.node (.node .leaf
    497512306537421680695970071914073001082561046344563 1 .leaf)
    497512306537421680695970366986511829869483023889005 1 (.node .leaf
    500412586218795302713169941720232101640522859573102 2 .leaf)))
    501890969259505202818224107072160876193635994727781 2 (.node (.node (.node .leaf
    501890969259505202818224107072160876193636229410411 2 .leaf)
    120616841832173118003379558158830052146982979235509605 2 (.node .leaf
    120616841832173118003379558158830052146982979470192235 2 .leaf))
    120622693838228262350542347497770476048091963722593637 2 (.node (.node .leaf
    120622693838228262350542347497770476048091963957276267 2 .leaf)
    120990980833642882764773362967635326113111006375605605 0 (.node .leaf
    120990980833642882764773362967635326113111006610288235 0 .leaf))))
    121389959072218614905440653448517717967034930506265957 0 (.node (.node (.node (.node .leaf
    121389959072218614905440653448517717967034930740948587 0 .leaf)
    122113465092392910118063751439152060748957171931968869 2 (.node .leaf
    122113465092392910118063751439152060748957172166651499 2 .leaf))
    122119345686528955485616981864696508011263755425707365 2 (.node (.node .leaf
    122119345686528955485616981864696508011263755660389995 2 .leaf)
    122129615960998594408880577449495684875999950969860979 1 (.node .leaf
    122129615960998594408880577744568123704786872947405421 1 .leaf)))
    124752948644932644270982167702243027785260192043398501 2 (.node (.node (.node .leaf
    124752948644932644270982167702243027785260192278081131 2 .leaf)
    125854920723008200154088252095595043238163228508123749 1 (.node .leaf
    125854943872417866203863202763585566404529645626881381 2 .leaf))
    125854943872417866203863202763585566404529645861564011 2 (.node (.node .leaf
    126999247960448789570780801564414294265778079787677029 2 .leaf)
    126999247960448789570780801564414294265778080022359659 2 (.node .leaf
    127363150473579950258168332545479427292775748937806437 1 .leaf))))))
    127380751626126378154230001195120980104728087704139109 2 (.node (.node (.node (.node (.node
    (.node .leaf 127380751626126378154230001195120980104728087938821739 2 .leaf)
    30790751964658972090526158748946496995757688873055712613 2 (.node .leaf
    30790751964658972090526158748946496995757688873290395243 2 .leaf))
    30879403764248985545408510141562704944108762011150349669 0 (.node (.node .leaf
    30879403764248985545408510141562704944108762011385032299 0 .leaf)
    30976312941691239346102413115052684324819724145466832229 2 (.node .leaf
    30976312941691239346102413115052684324819724145701514859 2 .leaf)))
    31074723216972904170761181129733743049897926877923538277 2 (.node (.node (.node .leaf
    31074723216972904170761181129733743049897926878158220907 2 .leaf)
    31265181686015640168673427821206372067271627569358008933 1 (.node .leaf
    31363207563664536440598078836658657182261806942621824357 2 .leaf))
    31363207563664536440598078836658657182261806942856506987 2 (.node (.node .leaf
    31838730493153752475816214361455432174452954638370764133 0 .leaf)
    31838730493153752475816214361455432174452954638605446763 0 (.node .leaf
    32123835854771883113948589809123356594513858144416593253 2 .leaf))))
    32123835854771883113948589809123356594513858144651275883 2 (.node (.node (.node (.node
    .leaf 32220337277851444564244348949056170856982399764354856293 2 .leaf)
    32220337277851444564244348949056170856982399764589538923 2 (.node .leaf
    32220356300343021115031518757036056123010305133915174245 2 .leaf))
    32220356300343021115031518757036056123010305134149856875 2 (.node (.node .leaf
    32415661217129703081373116082709889344979524148720858469 2 .leaf)
    32415661217129703081373116082709889344979524148955541099 2 (.node .leaf
    32702621126158851585164296480888972271821060541313217893 2 .leaf)))
    32702621126158851585164296480888972271821060541547900523 2 (.node (.node (.node .leaf
    8052248042121422018207541452677081864643953191369084532069 2 .leaf)
    8052248042121422018207541452677081864643953191369319214699 2 (.node .leaf
    8100904407119277947153725566426320920963738033848134429797 4 .leaf))
    8125428445619346825396572008158671371224809724527743104357 2 (.node (.node .leaf
    8125428445619346825396572008158671371224809724527977786987 2 .leaf)
    8248028084503065405298244897021269283726172440926838617445 0 (.node .leaf
    8248028084503065405298244897021269283726172440927073300075 0 .leaf)))))
    8321966136399375887404874961902126043101330285110619829605 2 (.node (.node (.node (.node
    (.node .leaf 8321966136399375887404874961902126043101330285110854512235 2 .leaf)
    8323122992422035830724932885618332738216811155684510692709 2 (.node .leaf
    8323122992422035830724932885618332738216811155684745375339 2 .leaf))
    8346871429436535620119237049384892277129258579806523258213 0 (.node (.node .leaf
    8346871429436535620119237049384892277129258579806757940843 0 .leaf)
    8347732709856027244787780938117975260285287330619536995685 2 (.node .leaf
    8347732709856027244787780938117975260285287330619771678315 2 .leaf)))
    2017608193134896674687608024889820966195477388052102891992421 2 (.node (.node (.node .leaf
    2017608193134896674687608024889820966195477388052103126675051 2 .leaf)
    2017755405490296739228229485940524178405346670192288917648741 2 (.node .leaf
    2017755405490296739228229485940524178405346670192289152331371 2 .leaf))
    2024106744588700824214353751899974782802471740948153967080805 2 (.node (.node .leaf
    2024106744588700824214353751899974782802471740948154201763435 2 .leaf)
    2048994946974720994094181682898265152330783291482864914036069 0 (.node .leaf
    2048994946974720994094181682898265152330783291482865148718699 0 .leaf))))
    2055491197429985824067715381946093336479272056721218279863653 2 (.node (.node (.node (.node
    .leaf 2055491197429985824067715381946093336479272056721218514546283 2 .leaf)
    519778264661566412619823336747106587239351281512963734630069605 2 (.node .leaf
    519778264661566412619823336747106587239351281512963734864752235 2 .leaf))
    537454189772243686532812855470539389548791791439710927408887141 2 (.node (.node .leaf
    537454189772243686532812855470539389548791791439710927643569771 2 .leaf)
    545363289782127774534262206343387107114969950946678579502282085 2 (.node .leaf
    545363289782127774534262206343387107114969950946678579736964715 2 .leaf)))
    545388370699927639457626219403739513501766458811055035323807077 2 (.node (.node (.node
    .leaf 545388370699927639457626219403739513501766458811055035558489707 2 .leaf)
    138409424421331735597237850316884291275424505893397316118336271717 2 (.node .leaf
    138409424421331735597237850316884291275424505893397316118570954347 2 .leaf))
    140051739842219863803519036081412042284870361572277610533872235877 2 (.node (.node .leaf
    140051739842219863803519036081412042284870361572277610534106918507 2 .leaf)
    36058526989223563635713648351885799278039035454273439127141863945573 2 (.node .leaf
    36058526989223563635713648351885799278039035454273439127142098628203 2 .leaf))))))))))

/-- True when every name in the list is assigned the tag `tag` by the certificate
tree. -/
def tagCheck (l : List String) (tag : Nat) : Bool :=
  l.all (fun s => NatTree.find (strCode s) petCatTree == some tag)

/-- Sum of `times` over the plan items whose food name is `f` (the quantity the
stockpile-conservation property talks about). -/
def sum_times_for (f : String) : List FeedPlanItem → Int
  | [] => 0
  | it :: rest => (if it.food_name = f then it.times else 0) + sum_times_for f rest

/-- True when the pet's feeding status would be accepted by the `FeedingStatus`
constructor (pethelper.py rejects `< -1`, `1..4` and `>= 50`). -/
def hasValidFeedingStatus (p : Pet) : Bool :=
  (FeedingStatus.make p.feeding_status.feeding_status).isSome

/-- The sequence of zoo entries `make_plan` iterates over, in processing order: the
generation-1 sub-zoo, then the quest sub-zoo, then the magic sub-zoo of the stored
feedable zoo. -/
def processed_zoo (alg : ZooFeedingAlgorithm) : Zoo :=
  filter_on_pet Pet.is_generation1_pet alg.zoo ++ filter_on_pet Pet.is_quest_pet alg.zoo
    ++ filter_on_pet Pet.is_magic_hatching_pet alg.zoo

/-- Category rank of a plan item: 0 for a generation-1 pet, 1 for a quest pet, 2
otherwise; the plan produced by `make_plan` is sorted by this rank. -/
def cat_rank (it : FeedPlanItem) : Nat :=
  if PetData.generation1_pet_names.contains it.pet_name then 0
  else if PetData.quest_pet_names.contains it.pet_name then 1
  else 2

/-- A one-pet sample zoo used by concrete witnesses: a hungry generation-1 Wolf-Base
whose mount is not owned yet. -/
def wZoo : Zoo := [("Wolf-Base", ⟨⟨"Wolf-Base", ⟨5⟩⟩, false⟩)]

/-- A sample stockpile used by concrete witnesses. -/
def wStock : FoodStockpile := ⟨[("Meat", 9), ("Milk", 2)]⟩

/-- A two-pet sample zoo used by concrete witnesses: a quest pet listed before a
generation-1 pet, both hungry and without their mounts. -/
def w2Zoo : Zoo :=
  [("Gryphon-Base", ⟨⟨"Gryphon-Base", ⟨5⟩⟩, false⟩),
    ("Wolf-Base", ⟨⟨"Wolf-Base", ⟨5⟩⟩, false⟩)]

/-- A sample stockpile with enough Meat for both sample pets. -/
def w2Stock : FoodStockpile := ⟨[("Meat", 18)]⟩

/-! ### Catalog certificate facts -/

theorem gen1_tags : tagCheck PetData.generation1_pet_names 0 = true := by rfl

theorem magic_tags : tagCheck PetData.magic_potion_pet_names 1 = true := by rfl

theorem quest_tags : tagCheck PetData.quest_pet_names 2 = true := by rfl

theorem wacky_tags : tagCheck PetData.wacky_pet_names 3 = true := by rfl

theorem rare_tags : tagCheck PetData.rare_pet_names 4 = true := by rfl

theorem tag_of_mem {l : List String} {t : Nat} (h : tagCheck l t = true) {n : String}
    (hm : n ∈ l) : NatTree.find (strCode n) petCatTree = some t := by
  have hx := List.all_eq_true.mp h n hm
  exact eq_of_beq hx

theorem not_mem_of_tags {A B : List String} {ta tb : Nat} (hA : tagCheck A ta = true)
    (hB : tagCheck B tb = true) (hne : ta ≠ tb) {n : String} (ha : n ∈ A) : n ∉ B := by
  intro hb
  have h1 := tag_of_mem hA ha
  have h2 := tag_of_mem hB hb
  rw [h1] at h2
  exact hne (Option.some.inj h2)

theorem disj_gen1_magic {n : String} (h : n ∈ PetData.generation1_pet_names) :
    n ∉ PetData.magic_potion_pet_names :=
  not_mem_of_tags gen1_tags magic_tags (by decide) h

theorem disj_gen1_quest {n : String} (h : n ∈ PetData.generation1_pet_names) :
    n ∉ PetData.quest_pet_names :=
  not_mem_of_tags gen1_tags quest_tags (by decide) h

theorem disj_gen1_wacky {n : String} (h : n ∈ PetData.generation1_pet_names) :
    n ∉ PetData.wacky_pet_names :=
  not_mem_of_tags gen1_tags wacky_tags (by decide) h

theorem disj_gen1_rare {n : String} (h : n ∈ PetData.generation1_pet_names) :
    n ∉ PetData.rare_pet_names :=
  not_mem_of_tags gen1_tags rare_tags (by decide) h

theorem disj_magic_quest {n : String} (h : n ∈ PetData.magic_potion_pet_names) :
    n ∉ PetData.quest_pet_names :=
  not_mem_of_tags magic_tags quest_tags (by decide) h

theorem disj_magic_wacky {n : String} (h : n ∈ PetData.magic_potion_pet_names) :
    n ∉ PetData.wacky_pet_names :=
  not_mem_of_tags magic_tags wacky_tags (by decide) h

theorem disj_magic_rare {n : String} (h : n ∈ PetData.magic_potion_pet_names) :
    n ∉ PetData.rare_pet_names :=
  not_mem_of_tags magic_tags rare_tags (by decide) h

theorem disj_quest_wacky {n : String} (h : n ∈ PetData.quest_pet_names) :
    n ∉ PetData.wacky_pet_names :=
  not_mem_of_tags quest_tags wacky_tags (by decide) h

theorem disj_quest_rare {n : String} (h : n ∈ PetData.quest_pet_names) :
    n ∉ PetData.rare_pet_names :=
  not_mem_of_tags quest_tags rare_tags (by decide) h

theorem disj_wacky_rare {n : String} (h : n ∈ PetData.wacky_pet_names) :
    n ∉ PetData.rare_pet_names :=
  not_mem_of_tags wacky_tags rare_tags (by decide) h

theorem contains_true_of_mem {l : List String} {x : String} (h : x ∈ l) :
    l.contains x = true :=
  List.elem_eq_true_of_mem h

theorem contains_false_of_not_mem {l : List String} {x : String} (h : x ∉ l) :
    l.contains x = false := by
  cases hc : l.contains x with
  | false => rfl
  | true => exact absurd (List.mem_of_elem_eq_true hc) h

/-! ### Arithmetic bridge -/

theorem int_ceil_div_eq_ceil (a : Int) (b : Nat) :
    int_ceil_div a (b : Int) = ⌈(a : ℚ) / (b : ℚ)⌉ := by
  have hb' : (0 : Int) ≤ (b : Int) := by exact_mod_cast Nat.zero_le b
  rw [int_ceil_div, Int.fdiv_eq_ediv _ hb']
  have hcast : ((a : ℚ) / (b : ℚ)) = -((((-a : ℤ) : ℚ)) / ((b : ℕ) : ℚ)) := by
    push_cast
    ring
  rw [hcast, Int.ceil_neg, Rat.floor_intCast_div_natCast]

/-! ### Claims about FeedingStatus -/

/-- C5 counterexample: the claim says constructing a `FeedingStatus` with 0 raises, but
the code accepts 0 (the guard tests membership in `[1, 2, 3, 4]`, which omits 0), even
though 0 is outside the domain the claim declares legal. -/
theorem C5_counterexample :
    FeedingStatus.make 0 = some ⟨0⟩
    ∧ ¬((0 : Int) = -1 ∨ (5 ≤ (0 : Int) ∧ (0 : Int) ≤ 49)) := by
  decide

/-- C5 (amended): constructing a `FeedingStatus` with `n` fails exactly when `n` is
outside `{-1, 0} ∪ {5, ..., 49}`; in particular 1, 2, 3 and 4 always raise, values of 50
or more and values below -1 always raise, and -1, 0 and 5..49 succeed. -/
theorem C5_feeding_status_domain (n : Int) :
    FeedingStatus.make n = none ↔ ¬(n = -1 ∨ n = 0 ∨ (5 ≤ n ∧ n ≤ 49)) := by
  have hmem : n ∈ [(1 : Int), 2, 3, 4] ↔ (n = 1 ∨ n = 2 ∨ n = 3 ∨ n = 4) := by
    simp
  unfold FeedingStatus.make
  split
  case isTrue h =>
    rw [hmem] at h
    exact iff_of_true rfl (by omega)
  case isFalse h =>
    rw [hmem] at h
    exact iff_of_false (by simp) (by omega)

/-- C6: for every successfully constructed `FeedingStatus` with value `n`, the number of
food items required to reach mount status is the ceiling of `(50 - n) / 5` for a
favorite food and of `(50 - n) / 2` otherwise; it is a function of `n` and favoriteness
alone (no stockpile argument exists). -/
theorem C6_required_food_arith (n : Int) (fs : FeedingStatus)
    (hmk : FeedingStatus.make n = some fs) (favorite : Bool) :
    fs.required_food_items_to_become_mount favorite
      = ⌈((50 : ℚ) - (n : ℚ)) / (if favorite then (5 : ℚ) else (2 : ℚ))⌉ := by
  have hfs : fs = ⟨n⟩ := by
    unfold FeedingStatus.make at hmk
    split at hmk
    · exact absurd hmk (by simp)
    · exact (Option.some.inj hmk).symm
  subst hfs
  have h50 : FeedingStatus.FULLY_FED_STATE - n = (50 - n : Int) := rfl
  cases favorite with
  | true =>
    have := int_ceil_div_eq_ceil (50 - n) 5
    simp only [FeedingStatus.required_food_items_to_become_mount, h50, if_true]
    rw [show FeedingStatus.FAVORITE_INCREMENT = ((5 : ℕ) : Int) from rfl, this]
    norm_num [Int.cast_sub]
  | false =>
    have := int_ceil_div_eq_ceil (50 - n) 2
    simp only [FeedingStatus.required_food_items_to_become_mount, h50, if_false]
    rw [show FeedingStatus.NON_FAVORITE_INCREMENT = ((2 : ℕ) : Int) from rfl, this]
    norm_num [Int.cast_sub]

/-- C6 witness: a freshly hatched pet (status 5) needs 9 favorite food items. -/
theorem C6_witness :
    FeedingStatus.make 5 = some ⟨5⟩
    ∧ FeedingStatus.required_food_items_to_become_mount ⟨5⟩ true
        = ⌈((50 : ℚ) - ((5 : Int) : ℚ)) / (if true then (5 : ℚ) else (2 : ℚ))⌉ :=
  ⟨by decide, C6_required_food_arith 5 ⟨5⟩ (by decide) true⟩

/-! ### Construction validation of eggs and pets -/

/-- C9: for every name outside the corresponding catalog, constructing an `Egg` or a
`Pet` with that name fails (models the `EggException` / `InvalidPet` raise); for every
negative quantity, constructing an `Egg` fails; and these are the only failures, so no
invalid input is silently coerced. -/
theorem C9_construction_validation (name : String) (q : Int) (fs : FeedingStatus) :
    (Egg.make name q = none ↔ (name ∉ EggData.egg_names ∨ q < 0))
    ∧ (Pet.make name fs = none ↔ name ∉ PetData.pet_names) := by
  constructor
  · unfold Egg.make
    by_cases hm : name ∈ EggData.egg_names
    · rw [contains_true_of_mem hm]
      by_cases hq : q < 0
      · rw [if_neg (by decide), if_pos hq]
        exact iff_of_true rfl (Or.inr hq)
      · rw [if_neg (by decide), if_neg hq]
        exact iff_of_false (by simp) (by tauto)
    · rw [contains_false_of_not_mem hm]
      rw [if_pos (by decide)]
      exact iff_of_true rfl (Or.inl hm)
  · unfold Pet.make
    by_cases hm : name ∈ PetData.pet_names
    · rw [contains_true_of_mem hm]
      rw [if_pos rfl]
      exact iff_of_false (by simp) (by tauto)
    · rw [contains_false_of_not_mem hm]
      exact iff_of_true (by simp) hm

/-! ### Spell lookup totality -/

/-- C10: every name in `SpellData.single_arg_spells` yields a constructible `Spell`
whose `class_name` is one of warrior, wizard, healer, rogue (never the
not-implemented-yet branch) and whose `mana_required` two-level lookup succeeds. -/
theorem C10_spell_lookup_total : ∀ name ∈ SpellData.single_arg_spells,
    Spell.make name = some ⟨name⟩
    ∧ (Spell.class_name ⟨name⟩).isSome = true
    ∧ (Spell.class_name ⟨name⟩).getD "" ∈ ["warrior", "wizard", "healer", "rogue"]
    ∧ (Spell.mana_required ⟨name⟩).isSome = true := by
  decide

/-- C10 witness: the mage spell mpheal is constructible, classified as wizard, and its
mana lookup succeeds. -/
theorem C10_witness :
    "mpheal" ∈ SpellData.single_arg_spells
    ∧ (Spell.make "mpheal" = some ⟨"mpheal"⟩
        ∧ (Spell.class_name ⟨"mpheal"⟩).isSome = true
        ∧ (Spell.class_name ⟨"mpheal"⟩).getD "" ∈ ["warrior", "wizard", "healer", "rogue"]
        ∧ (Spell.mana_required ⟨"mpheal"⟩).isSome = true) :=
  ⟨by decide, C10_spell_lookup_total "mpheal" (by decide)⟩

/-! ### Egg hatching -/

theorem egg_catalogs_disjoint :
    (EggData.drop_egg_names.all fun n => !(EggData.quest_egg_names.contains n)) = true := by
  rfl

theorem not_quest_egg_of_drop {n : String} (h : n ∈ EggData.drop_egg_names) :
    n ∉ EggData.quest_egg_names := by
  intro hq
  have hx := List.all_eq_true.mp egg_catalogs_disjoint n h
  rw [contains_true_of_mem hq] at hx
  exact absurd hx (by decide)

/-- C8: `can_be_hatched_by` is false whenever either quantity is 0; with both quantities
positive it equals `is_standard_hatch_potion` for a quest egg and is true for a standard
(drop) egg. -/
theorem C8_can_be_hatched_by (e : Egg) (p : HatchPotion) :
    ((e.quantity = 0 ∨ p.quantity = 0) → e.can_be_hatched_by p = false)
    ∧ (0 < e.quantity → 0 < p.quantity →
        (e.is_quest_egg = true → e.can_be_hatched_by p = p.is_standard_hatch_potion)
        ∧ (e.is_standard_egg = true → e.can_be_hatched_by p = true)) := by
  constructor
  · intro h
    have hc : (p.quantity == (0 : Int) || e.quantity == (0 : Int)) = true := by
      rcases h with h | h <;> simp [h]
    simp [Egg.can_be_hatched_by, hc]
  · intro he hp
    have hc : (p.quantity == (0 : Int) || e.quantity == (0 : Int)) = false := by
      have h1 : (p.quantity == (0 : Int)) = false := by
        rw [beq_eq_false_iff_ne]
        omega
      have h2 : (e.quantity == (0 : Int)) = false := by
        rw [beq_eq_false_iff_ne]
        omega
      rw [h1, h2]
      rfl
    constructor
    · intro hq
      simp [Egg.can_be_hatched_by, hc, hq]
    · intro hs
      have hdrop : e.name ∈ EggData.drop_egg_names := by
        have := hs
        unfold Egg.is_standard_egg at this
        exact List.mem_of_elem_eq_true this
      have hq : e.is_quest_egg = false := by
        unfold Egg.is_quest_egg
        exact contains_false_of_not_mem (not_quest_egg_of_drop hdrop)
      simp [Egg.can_be_hatched_by, hc, hq]

/-- C8 witness: one Wolf egg (a drop egg) with one Base potion hatches. -/
theorem C8_witness :
    Egg.is_standard_egg ⟨"Wolf", 1⟩ = true
    ∧ Egg.can_be_hatched_by ⟨"Wolf", 1⟩ ⟨"Base", 1⟩ = true :=
  ⟨by decide,
    ((C8_can_be_hatched_by ⟨"Wolf", 1⟩ ⟨"Base", 1⟩).2 (by decide) (by decide)).2 (by decide)⟩

/-! ### Category partition of the pet catalog -/

/-- C7: the five category lists cover the full catalog (`pet_names` is their
concatenation) and are pairwise disjoint, so every catalog name lies in exactly one
list; and each category predicate is a function of the pet name alone, hence stable
across repeated calls. -/
theorem C7_category_partition :
    (∀ n : String, n ∈ PetData.pet_names ↔
        (n ∈ PetData.generation1_pet_names ∨ n ∈ PetData.magic_potion_pet_names
          ∨ n ∈ PetData.quest_pet_names ∨ n ∈ PetData.wacky_pet_names
          ∨ n ∈ PetData.rare_pet_names))
    ∧ (∀ n ∈ PetData.pet_names,
        ([PetData.generation1_pet_names.contains n, PetData.magic_potion_pet_names.contains n,
            PetData.quest_pet_names.contains n, PetData.wacky_pet_names.contains n,
            PetData.rare_pet_names.contains n].count true) = 1)
    ∧ (∀ p q : Pet, p.pet_name = q.pet_name →
        p.is_generation1_pet = q.is_generation1_pet ∧ p.is_quest_pet = q.is_quest_pet
          ∧ p.is_magic_hatching_pet = q.is_magic_hatching_pet) := by
  have hcover : ∀ n : String, n ∈ PetData.pet_names ↔
      (n ∈ PetData.generation1_pet_names ∨ n ∈ PetData.magic_potion_pet_names
        ∨ n ∈ PetData.quest_pet_names ∨ n ∈ PetData.wacky_pet_names
        ∨ n ∈ PetData.rare_pet_names) := by
    intro n
    simp only [PetData.pet_names, List.mem_append]
    tauto
  refine ⟨hcover, ?_, ?_⟩
  · intro n hn
    rcases (hcover n).mp hn with h | h | h | h | h
    · rw [contains_true_of_mem h,
        contains_false_of_not_mem (disj_gen1_magic h),
        contains_false_of_not_mem (disj_gen1_quest h),
        contains_false_of_not_mem (disj_gen1_wacky h),
        contains_false_of_not_mem (disj_gen1_rare h)]
      decide
    · rw [contains_false_of_not_mem (fun hg => disj_gen1_magic hg h),
        contains_true_of_mem h,
        contains_false_of_not_mem (disj_magic_quest h),
        contains_false_of_not_mem (disj_magic_wacky h),
        contains_false_of_not_mem (disj_magic_rare h)]
      decide
    · rw [contains_false_of_not_mem (fun hg => disj_gen1_quest hg h),
        contains_false_of_not_mem (fun hg => disj_magic_quest hg h),
        contains_true_of_mem h,
        contains_false_of_not_mem (disj_quest_wacky h),
        contains_false_of_not_mem (disj_quest_rare h)]
      decide
    · rw [contains_false_of_not_mem (fun hg => disj_gen1_wacky hg h),
        contains_false_of_not_mem (fun hg => disj_magic_wacky hg h),
        contains_false_of_not_mem (fun hg => disj_quest_wacky hg h),
        contains_true_of_mem h,
        contains_false_of_not_mem (disj_wacky_rare h)]
      decide
    · rw [contains_false_of_not_mem (fun hg => disj_gen1_rare hg h),
        contains_false_of_not_mem (fun hg => disj_magic_rare hg h),
        contains_false_of_not_mem (fun hg => disj_quest_rare hg h),
        contains_false_of_not_mem (fun hg => disj_wacky_rare hg h),
        contains_true_of_mem h]
      decide
  · intro p q h
    refine ⟨?_, ?_, ?_⟩ <;>
      simp [Pet.is_generation1_pet, Pet.is_quest_pet, Pet.is_magic_hatching_pet, h]

/-- C7 witness: the first catalog name, Wolf-Base, lies in exactly one category list. -/
theorem C7_witness :
    "Wolf-Base" ∈ PetData.pet_names
    ∧ ([PetData.generation1_pet_names.contains "Wolf-Base",
        PetData.magic_potion_pet_names.contains "Wolf-Base",
        PetData.quest_pet_names.contains "Wolf-Base",
        PetData.wacky_pet_names.contains "Wolf-Base",
        PetData.rare_pet_names.contains "Wolf-Base"].count true) = 1 :=
  ⟨by decide, C7_category_partition.2.1 "Wolf-Base" (by decide)⟩

/-! ### The return value of make_plan -/

/-- C4 (code-bug evidence): `make_plan` is annotated `-> None` and has no return
statement, so its return value (the first component of the embedding) is `None` for
every input — in particular on the empty zoo and stockpile of the repository's own test
`test_make_plan_empty_stockpile_results_in_empty_plan_ok`, which compares the return
value with a `ZookeeperFeedPlan` — even though the computed plan is available on the
object state. -/
theorem C4_make_plan_return_value :
    (ZooFeedingAlgorithm.make [] ⟨[]⟩).make_plan.1 = none
    ∧ (ZooFeedingAlgorithm.make [] ⟨[]⟩).make_plan.2.zookeeper_plan = ⟨[]⟩
    ∧ ∀ (zoo : Zoo) (stockpile : FoodStockpile),
        (ZooFeedingAlgorithm.make zoo stockpile).make_plan.1 = none :=
  ⟨rfl, rfl, fun _ _ => rfl⟩

/-! ### Stockpile accounting lemmas -/

theorem sum_times_for_append (f : String) (a b : List FeedPlanItem) :
    sum_times_for f (a ++ b) = sum_times_for f a + sum_times_for f b := by
  induction a with
  | nil => simp [sum_times_for]
  | cons it rest ih => simp [sum_times_for, ih, add_assoc]

theorem foodCountOf_modify_self (l : List (String × Int)) (f : String) (n : Int)
    (hmem : f ∈ l.map Prod.fst) :
    foodCountOf (modifyFoodList l f n) f = foodCountOf l f + n := by
  induction l with
  | nil => simp at hmem
  | cons e rest ih =>
    obtain ⟨g, c⟩ := e
    by_cases h : g = f
    · subst h
      simp [modifyFoodList, foodCountOf]
    · have hmem' : f ∈ rest.map Prod.fst := by
        rcases List.mem_cons.mp hmem with h' | h'
        · exact absurd h'.symm h
        · exact h'
      simp [modifyFoodList, foodCountOf, h, ih hmem']

theorem foodCountOf_modify_other (l : List (String × Int)) (f : String) (n : Int)
    (g : String) (h : g ≠ f) :
    foodCountOf (modifyFoodList l f n) g = foodCountOf l g := by
  induction l with
  | nil => rfl
  | cons e rest ih =>
    obtain ⟨k, c⟩ := e
    by_cases hk : k = f
    · subst hk
      have : ¬(k = g) := fun he => h (he ▸ rfl)
      simp [modifyFoodList, foodCountOf, this]
    · by_cases hg : k = g
      · subst hg
        simp [modifyFoodList, foodCountOf, hk]
      · simp [modifyFoodList, foodCountOf, hk, hg, ih]

theorem mem_of_foodCountOf_pos (l : List (String × Int)) (f : String)
    (h : 0 < foodCountOf l f) : f ∈ l.map Prod.fst := by
  induction l with
  | nil => simp [foodCountOf] at h
  | cons e rest ih =>
    obtain ⟨g, c⟩ := e
    by_cases hg : g = f
    · subst hg
      exact List.mem_cons_self _ _
    · apply List.mem_cons_of_mem
      apply ih
      simpa [foodCountOf, hg] using h

theorem modify_nonneg (l : List (String × Int)) (f : String) (n : Int)
    (hl : ∀ b ∈ l, 0 ≤ b.2) (hn : 0 ≤ foodCountOf l f + n) :
    ∀ b ∈ modifyFoodList l f n, 0 ≤ b.2 := by
  induction l with
  | nil => simp [modifyFoodList]
  | cons e rest ih =>
    obtain ⟨g, c⟩ := e
    by_cases hg : g = f
    · subst hg
      simp only [modifyFoodList, if_pos rfl]
      intro b hb
      rcases List.mem_cons.mp hb with h' | h'
      · subst h'
        have : foodCountOf ((g, c) :: rest) g = c := by simp [foodCountOf]
        rw [this] at hn
        exact hn
      · exact hl b (List.mem_cons_of_mem _ h')
    · simp only [modifyFoodList, if_neg hg]
      intro b hb
      rcases List.mem_cons.mp hb with h' | h'
      · subst h'
        exact hl (g, c) (List.mem_cons_self _ _)
      · refine ih (fun x hx => hl x (List.mem_cons_of_mem _ hx)) ?_ b h'
        simpa [foodCountOf, hg] using hn

/-! ### Positivity of the required amount for valid pets -/

theorem times_pos {p : Pet} (hval : hasValidFeedingStatus p = true) (food : String) :
    1 ≤ p.required_food_items_until_mount food := by
  have hle : p.feeding_status.feeding_status ≤ 49 := by
    unfold hasValidFeedingStatus FeedingStatus.make at hval
    split at hval
    · simp at hval
    case isFalse h =>
      have h' : ¬(p.feeding_status.feeding_status < -1
          ∨ (p.feeding_status.feeding_status = 1 ∨ p.feeding_status.feeding_status = 2
              ∨ p.feeding_status.feeding_status = 3 ∨ p.feeding_status.feeding_status = 4)
          ∨ 50 ≤ p.feeding_status.feeding_status) := by
        simpa using h
      omega
  unfold Pet.required_food_items_until_mount FeedingStatus.required_food_items_to_become_mount
  cases p.is_favorite_food food <;>
    · simp only [FeedingStatus.FULLY_FED_STATE, FeedingStatus.FAVORITE_INCREMENT,
        FeedingStatus.NON_FAVORITE_INCREMENT, if_true, if_false, Bool.false_eq_true,
        int_ceil_div]
      rw [Int.fdiv_eq_ediv _ (by norm_num)]
      omega

/-! ### Step lemmas for the feeding loop -/

theorem feed_one_pet_conserve (alg : ZooFeedingAlgorithm) (entry : String × PetMountPair)
    (hval : hasValidFeedingStatus entry.2.pet = true) (f : String) :
    (feed_one_pet alg entry).stockpile.food_count f
      + sum_times_for f (feed_one_pet alg entry).zookeeper_plan.feed_plan
    = alg.stockpile.food_count f + sum_times_for f alg.zookeeper_plan.feed_plan := by
  unfold feed_one_pet
  dsimp only
  set food_name := (if entry.2.pet.has_just_1_favorite_food = true then entry.2.pet.favorite_food
    else alg.stockpile.get_most_abundant_food) with hfood
  set times := entry.2.pet.required_food_items_until_mount food_name with htimes
  split
  case isTrue hsuf =>
    have hcnt : times ≤ foodCountOf alg.stockpile.stockpile food_name := by
      have hx := hsuf
      unfold FoodStockpile.has_sufficient at hx
      exact of_decide_eq_true hx
    have htp : 1 ≤ times := times_pos hval food_name
    unfold FoodStockpile.food_count FoodStockpile.modify_stockpile
        ZookeeperFeedPlan.add_to_feed_plan
    dsimp only
    rw [sum_times_for_append]
    by_cases hff : food_name = f
    · subst hff
      have hmem : food_name ∈ alg.stockpile.stockpile.map Prod.fst :=
        mem_of_foodCountOf_pos _ _ (by omega)
      rw [foodCountOf_modify_self _ _ _ hmem]
      simp [sum_times_for]
      omega
    · rw [foodCountOf_modify_other _ _ _ _ (fun he => hff he.symm)]
      simp [sum_times_for, hff]
  case isFalse hsuf => rfl

theorem feed_one_pet_nonneg (alg : ZooFeedingAlgorithm) (entry : String × PetMountPair)
    (h : ∀ b ∈ alg.stockpile.stockpile, 0 ≤ b.2) :
    ∀ b ∈ (feed_one_pet alg entry).stockpile.stockpile, 0 ≤ b.2 := by
  unfold feed_one_pet
  dsimp only
  set food_name := (if entry.2.pet.has_just_1_favorite_food = true then entry.2.pet.favorite_food
    else alg.stockpile.get_most_abundant_food) with hfood
  set times := entry.2.pet.required_food_items_until_mount food_name with htimes
  split
  case isTrue hsuf =>
    apply modify_nonneg _ _ _ h
    have hcnt : times ≤ foodCountOf alg.stockpile.stockpile food_name := by
      have hx := hsuf
      unfold FoodStockpile.has_sufficient at hx
      exact of_decide_eq_true hx
    have : foodCountOf alg.stockpile.stockpile food_name
        = FoodStockpile.food_count alg.stockpile food_name := rfl
    omega
  case isFalse hsuf => exact h

/-! ### Fold invariants of the planner -/

theorem make_plan_for_conserve (zoo : Zoo) :
    ∀ alg : ZooFeedingAlgorithm, (∀ e ∈ zoo, hasValidFeedingStatus e.2.pet = true) →
    ∀ f, (make_plan_for alg zoo).stockpile.food_count f
        + sum_times_for f (make_plan_for alg zoo).zookeeper_plan.feed_plan
      = alg.stockpile.food_count f + sum_times_for f alg.zookeeper_plan.feed_plan := by
  induction zoo with
  | nil => intro alg _ f; rfl
  | cons e rest ih =>
    intro alg hval f
    have hstep : make_plan_for alg (e :: rest) = make_plan_for (feed_one_pet alg e) rest := rfl
    rw [hstep, ih (feed_one_pet alg e) (fun x hx => hval x (List.mem_cons_of_mem _ hx)) f,
      feed_one_pet_conserve alg e (hval e (List.mem_cons_self _ _)) f]

theorem make_plan_for_nonneg (zoo : Zoo) :
    ∀ alg : ZooFeedingAlgorithm, (∀ b ∈ alg.stockpile.stockpile, 0 ≤ b.2) →
    ∀ b ∈ (make_plan_for alg zoo).stockpile.stockpile, 0 ≤ b.2 := by
  induction zoo with
  | nil => intro alg h; exact h
  | cons e rest ih =>
    intro alg h
    exact ih (feed_one_pet alg e) (feed_one_pet_nonneg alg e h)

theorem make_plan_snd_eq (alg : ZooFeedingAlgorithm) :
    alg.make_plan.2 = make_plan_for alg (processed_zoo alg) := by
  unfold ZooFeedingAlgorithm.make_plan processed_zoo make_plan_for
  dsimp only
  rw [List.foldl_append, List.foldl_append]

theorem mem_processed_zoo {alg : ZooFeedingAlgorithm} {e : String × PetMountPair}
    (h : e ∈ processed_zoo alg) : e ∈ alg.zoo := by
  unfold processed_zoo filter_on_pet at h
  rcases List.mem_append.mp h with h' | h'
  · rcases List.mem_append.mp h' with h'' | h''
    · exact List.mem_of_mem_filter h''
    · exact List.mem_of_mem_filter h''
  · exact List.mem_of_mem_filter h'

theorem mem_of_mem_feedable {zoo : Zoo} {e : String × PetMountPair}
    (h : e ∈ get_feedable_zoo zoo) : e ∈ zoo :=
  List.mem_of_mem_filter h

/-! ### Stockpile conservation -/

/-- C1: after `make_plan`, for every food name the initial stockpile count minus the
final count equals the sum of `times` over the plan items for that food, and no food
count in the final stockpile is negative. Quantified over every zoo of
constructor-valid pets and every stockpile of non-negative counts. -/
theorem C1_stockpile_conservation (zoo : Zoo) (stockpile : FoodStockpile)
    (hval : ∀ e ∈ zoo, hasValidFeedingStatus e.2.pet = true)
    (hpos : ∀ b ∈ stockpile.stockpile, 0 ≤ b.2) :
    (∀ f, stockpile.food_count f
        - (ZooFeedingAlgorithm.make zoo stockpile).make_plan.2.stockpile.food_count f
      = sum_times_for f
          (ZooFeedingAlgorithm.make zoo stockpile).make_plan.2.zookeeper_plan.feed_plan)
    ∧ ∀ b ∈ (ZooFeedingAlgorithm.make zoo stockpile).make_plan.2.stockpile.stockpile,
        0 ≤ b.2 := by
  have hval' : ∀ e ∈ processed_zoo (ZooFeedingAlgorithm.make zoo stockpile),
      hasValidFeedingStatus e.2.pet = true := by
    intro e he
    exact hval e (mem_of_mem_feedable (mem_processed_zoo he))
  constructor
  · intro f
    have h := make_plan_for_conserve (processed_zoo (ZooFeedingAlgorithm.make zoo stockpile))
      (ZooFeedingAlgorithm.make zoo stockpile) hval' f
    rw [make_plan_snd_eq]
    have hbase : (ZooFeedingAlgorithm.make zoo stockpile).stockpile.food_count f
        = stockpile.food_count f := rfl
    have hplan : sum_times_for f
        (ZooFeedingAlgorithm.make zoo stockpile).zookeeper_plan.feed_plan = 0 := rfl
    rw [hbase, hplan] at h
    omega
  · rw [make_plan_snd_eq]
    exact make_plan_for_nonneg _ _ hpos

/-- C1 witness: a single hungry Wolf-Base against a Meat-and-Milk stockpile. -/
theorem C1_witness :
    (∀ e ∈ wZoo, hasValidFeedingStatus e.2.pet = true)
    ∧ (∀ b ∈ wStock.stockpile, 0 ≤ b.2)
    ∧ ∀ f, wStock.food_count f
        - (ZooFeedingAlgorithm.make wZoo wStock).make_plan.2.stockpile.food_count f
      = sum_times_for f
          (ZooFeedingAlgorithm.make wZoo wStock).make_plan.2.zookeeper_plan.feed_plan :=
  ⟨by decide, by decide,
    (C1_stockpile_conservation wZoo wStock (by decide) (by decide)).1⟩

/-! ### No overcommitment during planning -/

theorem make_plan_for_take_succ (alg : ZooFeedingAlgorithm) (zoo : Zoo) (i : Nat)
    (hi : i < zoo.length) :
    make_plan_for alg (zoo.take (i + 1))
      = feed_one_pet (make_plan_for alg (zoo.take i)) (zoo.get ⟨i, hi⟩) := by
  unfold make_plan_for
  rw [List.take_succ, List.getElem?_eq_getElem hi, List.foldl_append]
  rfl

/-- C2: during `make_plan`, for the i-th pet considered (in processing order), a plan
item is appended and the stockpile decremented by `times` exactly when the stockpile
holds at least `times` units of the chosen food at that moment; otherwise the state is
unchanged for that pet. At the moment an item is produced the pre-decrement count is at
least `times`, and no intermediate stockpile count is ever negative. -/
theorem C2_no_overcommitment (zoo : Zoo) (stockpile : FoodStockpile)
    (hpos : ∀ b ∈ stockpile.stockpile, 0 ≤ b.2) :
    ∀ (i : Nat) (hi : i < (processed_zoo (ZooFeedingAlgorithm.make zoo stockpile)).length),
      let pets := processed_zoo (ZooFeedingAlgorithm.make zoo stockpile)
      let s_i := make_plan_for (ZooFeedingAlgorithm.make zoo stockpile) (pets.take i)
      let s_next := make_plan_for (ZooFeedingAlgorithm.make zoo stockpile) (pets.take (i + 1))
      let entry := pets.get ⟨i, hi⟩
      let pet := entry.2.pet
      let food_name := if pet.has_just_1_favorite_food then pet.favorite_food
        else s_i.stockpile.get_most_abundant_food
      let times := pet.required_food_items_until_mount food_name
      (s_i.stockpile.has_sufficient food_name times = true →
          s_next.stockpile = s_i.stockpile.modify_stockpile food_name (-times)
          ∧ s_next.zookeeper_plan.feed_plan
              = s_i.zookeeper_plan.feed_plan ++ [⟨entry.1, food_name, times⟩]
          ∧ times ≤ s_i.stockpile.food_count food_name)
        ∧ (s_i.stockpile.has_sufficient food_name times = false → s_next = s_i)
        ∧ (∀ b ∈ s_i.stockpile.stockpile, 0 ≤ b.2) := by
  intro i hi
  dsimp only
  have hstep := make_plan_for_take_succ (ZooFeedingAlgorithm.make zoo stockpile)
    (processed_zoo (ZooFeedingAlgorithm.make zoo stockpile)) i hi
  refine ⟨?_, ?_, ?_⟩
  · intro hsuf
    rw [hstep]
    unfold feed_one_pet
    dsimp only
    rw [if_pos hsuf]
    refine ⟨rfl, rfl, ?_⟩
    have hx := hsuf
    unfold FoodStockpile.has_sufficient at hx
    exact of_decide_eq_true hx
  · intro hsuf
    rw [hstep]
    unfold feed_one_pet
    dsimp only
    simp only [List.get_eq_getElem] at hsuf
    rw [if_neg (by simp [hsuf])]
  · exact make_plan_for_nonneg _ _ hpos

/-- C2 witness: the first processed pet of the one-wolf sample zoo, with a non-negative
intermediate stockpile. -/
theorem C2_witness :
    0 < (processed_zoo (ZooFeedingAlgorithm.make wZoo wStock)).length
    ∧ ∀ b ∈ (make_plan_for (ZooFeedingAlgorithm.make wZoo wStock)
          ((processed_zoo (ZooFeedingAlgorithm.make wZoo wStock)).take 0)).stockpile.stockpile,
        0 ≤ b.2 :=
  ⟨by decide, (C2_no_overcommitment wZoo wStock (by decide) 0 (by decide)).2.2⟩

/-! ### Plan decomposition lemmas -/

theorem feed_one_pet_plan_shape (alg : ZooFeedingAlgorithm) (entry : String × PetMountPair) :
    (feed_one_pet alg entry).zookeeper_plan.feed_plan = alg.zookeeper_plan.feed_plan
    ∨ ∃ food times, (feed_one_pet alg entry).zookeeper_plan.feed_plan
        = alg.zookeeper_plan.feed_plan ++ [⟨entry.1, food, times⟩] := by
  unfold feed_one_pet
  dsimp only
  set food_name := (if entry.2.pet.has_just_1_favorite_food = true then entry.2.pet.favorite_food
    else alg.stockpile.get_most_abundant_food) with hfood
  set times := entry.2.pet.required_food_items_until_mount food_name with htimes
  split
  · right
    exact ⟨_, _, rfl⟩
  · left
    rfl

theorem make_plan_for_items (zoo : Zoo) :
    ∀ alg : ZooFeedingAlgorithm, ∃ items : List FeedPlanItem,
      (make_plan_for alg zoo).zookeeper_plan.feed_plan
          = alg.zookeeper_plan.feed_plan ++ items
      ∧ List.Sublist (items.map FeedPlanItem.pet_name) (zoo.map Prod.fst)
      ∧ ∀ it ∈ items, ∃ e ∈ zoo, it.pet_name = e.1 := by
  induction zoo with
  | nil =>
    intro alg
    exact ⟨[], by simp [make_plan_for], by simp, by simp⟩
  | cons e rest ih =>
    intro alg
    obtain ⟨items, hplan, hsub, hmem⟩ := ih (feed_one_pet alg e)
    have hstep : make_plan_for alg (e :: rest) = make_plan_for (feed_one_pet alg e) rest := rfl
    rcases feed_one_pet_plan_shape alg e with hsh | ⟨food, times, hsh⟩
    · refine ⟨items, ?_, ?_, ?_⟩
      · rw [hstep, hplan, hsh]
      · simp only [List.map_cons]
        exact List.Sublist.cons _ hsub
      · intro it hit
        obtain ⟨x, hx, heq⟩ := hmem it hit
        exact ⟨x, List.mem_cons_of_mem _ hx, heq⟩
    · refine ⟨⟨e.1, food, times⟩ :: items, ?_, ?_, ?_⟩
      · rw [hstep, hplan, hsh, List.append_assoc]
        rfl
      · simp only [List.map_cons]
        exact List.Sublist.cons₂ _ hsub
      · intro it hit
        rcases List.mem_cons.mp hit with h' | h'
        · subst h'
          exact ⟨e, List.mem_cons_self _ _, rfl⟩
        · obtain ⟨x, hx, heq⟩ := hmem it h'
          exact ⟨x, List.mem_cons_of_mem _ hx, heq⟩

theorem plan_items_in_catalog {zoo : Zoo} {pred : Pet → Bool} {catalog : List String}
    (hcat : ∀ q : Pet, pred q = true → q.pet_name ∈ catalog)
    (hname : ∀ e ∈ zoo, e.2.pet.pet_name = e.1) {items : List FeedPlanItem}
    (hmem : ∀ it ∈ items, ∃ e ∈ filter_on_pet pred zoo, it.pet_name = e.1) :
    ∀ it ∈ items, it.pet_name ∈ catalog := by
  intro it hit
  obtain ⟨e, he, heq⟩ := hmem it hit
  unfold filter_on_pet at he
  have hf := List.mem_filter.mp he
  have hc := hcat e.2.pet hf.2
  rw [heq, ← hname e hf.1]
  exact hc

/-! ### Category ranks of plan items -/

theorem cat_rank_of_gen1 {it : FeedPlanItem}
    (h : it.pet_name ∈ PetData.generation1_pet_names) : cat_rank it = 0 := by
  unfold cat_rank
  rw [contains_true_of_mem h]
  rw [if_pos rfl]

theorem cat_rank_of_quest {it : FeedPlanItem}
    (h : it.pet_name ∈ PetData.quest_pet_names) : cat_rank it = 1 := by
  have hg : PetData.generation1_pet_names.contains it.pet_name = false :=
    contains_false_of_not_mem (fun hm => disj_gen1_quest hm h)
  unfold cat_rank
  rw [hg, contains_true_of_mem h]
  rw [if_neg (by simp), if_pos rfl]

theorem cat_rank_of_magic {it : FeedPlanItem}
    (h : it.pet_name ∈ PetData.magic_potion_pet_names) : cat_rank it = 2 := by
  have hg : PetData.generation1_pet_names.contains it.pet_name = false :=
    contains_false_of_not_mem (fun hm => disj_gen1_magic hm h)
  have hq : PetData.quest_pet_names.contains it.pet_name = false :=
    contains_false_of_not_mem (disj_magic_quest h)
  unfold cat_rank
  rw [hg, hq]
  rw [if_neg (by simp), if_neg (by simp)]

theorem make_plan_plan_decomp (alg : ZooFeedingAlgorithm)
    (hname : ∀ e ∈ alg.zoo, e.2.pet.pet_name = e.1) :
    ∃ N1 N2 N3 : List FeedPlanItem,
      alg.make_plan.2.zookeeper_plan.feed_plan
          = alg.zookeeper_plan.feed_plan ++ N1 ++ N2 ++ N3
      ∧ (∀ it ∈ N1, it.pet_name ∈ PetData.generation1_pet_names)
      ∧ (∀ it ∈ N2, it.pet_name ∈ PetData.quest_pet_names)
      ∧ (∀ it ∈ N3, it.pet_name ∈ PetData.magic_potion_pet_names)
      ∧ List.Sublist (N1.map FeedPlanItem.pet_name)
          ((filter_on_pet Pet.is_generation1_pet alg.zoo).map Prod.fst)
      ∧ List.Sublist (N2.map FeedPlanItem.pet_name)
          ((filter_on_pet Pet.is_quest_pet alg.zoo).map Prod.fst)
      ∧ List.Sublist (N3.map FeedPlanItem.pet_name)
          ((filter_on_pet Pet.is_magic_hatching_pet alg.zoo).map Prod.fst) := by
  obtain ⟨N1, h1, hs1, hm1⟩ :=
    make_plan_for_items (filter_on_pet Pet.is_generation1_pet alg.zoo) alg
  obtain ⟨N2, h2, hs2, hm2⟩ :=
    make_plan_for_items (filter_on_pet Pet.is_quest_pet alg.zoo)
      (make_plan_for alg (filter_on_pet Pet.is_generation1_pet alg.zoo))
  obtain ⟨N3, h3, hs3, hm3⟩ :=
    make_plan_for_items (filter_on_pet Pet.is_magic_hatching_pet alg.zoo)
      (make_plan_for (make_plan_for alg (filter_on_pet Pet.is_generation1_pet alg.zoo))
        (filter_on_pet Pet.is_quest_pet alg.zoo))
  refine ⟨N1, N2, N3, ?_, ?_, ?_, ?_, hs1, hs2, hs3⟩
  · have hsnd : alg.make_plan.2
        = make_plan_for (make_plan_for (make_plan_for alg
            (filter_on_pet Pet.is_generation1_pet alg.zoo))
            (filter_on_pet Pet.is_quest_pet alg.zoo))
            (filter_on_pet Pet.is_magic_hatching_pet alg.zoo) := rfl
    rw [hsnd, h3, h2, h1]
  · exact plan_items_in_catalog (fun q h => List.mem_of_elem_eq_true h) hname hm1
  · exact plan_items_in_catalog (fun q h => List.mem_of_elem_eq_true h) hname hm2
  · exact plan_items_in_catalog (fun q h => List.mem_of_elem_eq_true h) hname hm3

/-! ### Category processing order of the plan -/

/-- C3: in the plan produced by `make_plan`, every item for a generation-1 pet precedes
every item for a quest pet, which precedes every item for a magic-potion pet; and the
plan restricted to each category is an order-preserving subsequence of that sub-zoo's
pets. The hypothesis says the zoo maps each pet name to a pet carrying that name, as a
Python `Zoo` built from user data does. -/
theorem C3_category_order (zoo : Zoo) (stockpile : FoodStockpile)
    (hn : ∀ e ∈ zoo, e.2.pet.pet_name = e.1) :
    let p := (ZooFeedingAlgorithm.make zoo stockpile).make_plan.2.zookeeper_plan.feed_plan
    (∀ i j : Fin p.length,
        PetData.generation1_pet_names.contains (p.get i).pet_name = true →
        PetData.quest_pet_names.contains (p.get j).pet_name = true → (i : Nat) < j)
    ∧ (∀ i j : Fin p.length,
        PetData.generation1_pet_names.contains (p.get i).pet_name = true →
        PetData.magic_potion_pet_names.contains (p.get j).pet_name = true → (i : Nat) < j)
    ∧ (∀ i j : Fin p.length,
        PetData.quest_pet_names.contains (p.get i).pet_name = true →
        PetData.magic_potion_pet_names.contains (p.get j).pet_name = true → (i : Nat) < j)
    ∧ List.Sublist
        ((p.filter (fun it => PetData.generation1_pet_names.contains it.pet_name)).map
          FeedPlanItem.pet_name)
        ((filter_on_pet Pet.is_generation1_pet
            (ZooFeedingAlgorithm.make zoo stockpile).zoo).map Prod.fst)
    ∧ List.Sublist
        ((p.filter (fun it => PetData.quest_pet_names.contains it.pet_name)).map
          FeedPlanItem.pet_name)
        ((filter_on_pet Pet.is_quest_pet
            (ZooFeedingAlgorithm.make zoo stockpile).zoo).map Prod.fst)
    ∧ List.Sublist
        ((p.filter (fun it => PetData.magic_potion_pet_names.contains it.pet_name)).map
          FeedPlanItem.pet_name)
        ((filter_on_pet Pet.is_magic_hatching_pet
            (ZooFeedingAlgorithm.make zoo stockpile).zoo).map Prod.fst) := by
  have hname' : ∀ e ∈ (ZooFeedingAlgorithm.make zoo stockpile).zoo, e.2.pet.pet_name = e.1 :=
    fun e he => hn e (mem_of_mem_feedable he)
  obtain ⟨N1, N2, N3, hP, hg1, hq2, hm3c, hs1, hs2, hs3⟩ :=
    make_plan_plan_decomp (ZooFeedingAlgorithm.make zoo stockpile) hname'
  rw [show (ZooFeedingAlgorithm.make zoo stockpile).zookeeper_plan.feed_plan = [] from rfl,
    List.nil_append] at hP
  dsimp only
  rw [hP]
  have hn2 : ∀ it ∈ N2, it.pet_name ∉ PetData.generation1_pet_names :=
    fun it hit hm => disj_gen1_quest hm (hq2 it hit)
  have hn3g : ∀ it ∈ N3, it.pet_name ∉ PetData.generation1_pet_names :=
    fun it hit hm => disj_gen1_magic hm (hm3c it hit)
  have hn1q : ∀ it ∈ N1, it.pet_name ∉ PetData.quest_pet_names :=
    fun it hit => disj_gen1_quest (hg1 it hit)
  have hn3q : ∀ it ∈ N3, it.pet_name ∉ PetData.quest_pet_names :=
    fun it hit => disj_magic_quest (hm3c it hit)
  have hn1m : ∀ it ∈ N1, it.pet_name ∉ PetData.magic_potion_pet_names :=
    fun it hit => disj_gen1_magic (hg1 it hit)
  have hn2m : ∀ it ∈ N2, it.pet_name ∉ PetData.magic_potion_pet_names :=
    fun it hit hm => disj_magic_quest hm (hq2 it hit)
  have hpw : List.Pairwise (fun a b => cat_rank a ≤ cat_rank b) ((N1 ++ N2) ++ N3) := by
    rw [List.pairwise_append]
    refine ⟨?_, ?_, ?_⟩
    · rw [List.pairwise_append]
      refine ⟨?_, ?_, ?_⟩
      · refine List.pairwise_of_forall_mem_list fun a ha b hb => ?_
        rw [cat_rank_of_gen1 (hg1 a ha), cat_rank_of_gen1 (hg1 b hb)]
      · refine List.pairwise_of_forall_mem_list fun a ha b hb => ?_
        rw [cat_rank_of_quest (hq2 a ha), cat_rank_of_quest (hq2 b hb)]
      · intro a ha b hb
        rw [cat_rank_of_gen1 (hg1 a ha), cat_rank_of_quest (hq2 b hb)]
        omega
    · refine List.pairwise_of_forall_mem_list fun a ha b hb => ?_
      rw [cat_rank_of_magic (hm3c a ha), cat_rank_of_magic (hm3c b hb)]
    · intro a ha b hb
      rw [cat_rank_of_magic (hm3c b hb)]
      rcases List.mem_append.mp ha with h' | h'
      · rw [cat_rank_of_gen1 (hg1 a h')]
        omega
      · rw [cat_rank_of_quest (hq2 a h')]
        omega
  have hpos : ∀ (i j : Fin ((N1 ++ N2) ++ N3).length),
      cat_rank (((N1 ++ N2) ++ N3).get i) < cat_rank (((N1 ++ N2) ++ N3).get j) →
      (i : Nat) < j := by
    intro i j hlt
    rcases Nat.lt_trichotomy (i : Nat) (j : Nat) with h | h | h
    · exact h
    · exfalso
      have hij : i = j := Fin.ext h
      rw [hij] at hlt
      omega
    · exfalso
      have hji : j < i := h
      have := List.pairwise_iff_get.mp hpw j i hji
      omega
  refine ⟨?_, ?_, ?_, ?_, ?_, ?_⟩
  · intro i j hgi hqj
    exact hpos i j (by
      rw [cat_rank_of_gen1 (List.mem_of_elem_eq_true hgi),
        cat_rank_of_quest (List.mem_of_elem_eq_true hqj)]
      omega)
  · intro i j hgi hmj
    exact hpos i j (by
      rw [cat_rank_of_gen1 (List.mem_of_elem_eq_true hgi),
        cat_rank_of_magic (List.mem_of_elem_eq_true hmj)]
      omega)
  · intro i j hqi hmj
    exact hpos i j (by
      rw [cat_rank_of_quest (List.mem_of_elem_eq_true hqi),
        cat_rank_of_magic (List.mem_of_elem_eq_true hmj)]
      omega)
  · have hfe : ((N1 ++ N2) ++ N3).filter
        (fun it => PetData.generation1_pet_names.contains it.pet_name) = N1 := by
      rw [List.filter_append, List.filter_append,
        List.filter_eq_self.mpr (fun a ha => contains_true_of_mem (hg1 a ha)),
        List.filter_eq_nil_iff.mpr (fun a ha => by
          rw [contains_false_of_not_mem (hn2 a ha)]
          simp),
        List.filter_eq_nil_iff.mpr (fun a ha => by
          rw [contains_false_of_not_mem (hn3g a ha)]
          simp)]
      simp
    rw [hfe]
    exact hs1
  · have hfe : ((N1 ++ N2) ++ N3).filter
        (fun it => PetData.quest_pet_names.contains it.pet_name) = N2 := by
      rw [List.filter_append, List.filter_append,
        List.filter_eq_nil_iff.mpr (fun a ha => by
          rw [contains_false_of_not_mem (hn1q a ha)]
          simp),
        List.filter_eq_self.mpr (fun a ha => contains_true_of_mem (hq2 a ha)),
        List.filter_eq_nil_iff.mpr (fun a ha => by
          rw [contains_false_of_not_mem (hn3q a ha)]
          simp)]
      simp
    rw [hfe]
    exact hs2
  · have hfe : ((N1 ++ N2) ++ N3).filter
        (fun it => PetData.magic_potion_pet_names.contains it.pet_name) = N3 := by
      rw [List.filter_append, List.filter_append,
        List.filter_eq_nil_iff.mpr (fun a ha => by
          rw [contains_false_of_not_mem (hn1m a ha)]
          simp),
        List.filter_eq_nil_iff.mpr (fun a ha => by
          rw [contains_false_of_not_mem (hn2m a ha)]
          simp),
        List.filter_eq_self.mpr (fun a ha => contains_true_of_mem (hm3c a ha))]
      simp
    rw [hfe]
    exact hs3

/-- C3 witness: the two-pet sample zoo (a quest pet listed before a generation-1 pet)
with a name-consistent zoo mapping. -/
theorem C3_witness :
    (∀ e ∈ w2Zoo, e.2.pet.pet_name = e.1)
    ∧ ∀ i j :
        Fin ((ZooFeedingAlgorithm.make w2Zoo
          w2Stock).make_plan.2.zookeeper_plan.feed_plan).length,
        PetData.generation1_pet_names.contains
            (((ZooFeedingAlgorithm.make w2Zoo
              w2Stock).make_plan.2.zookeeper_plan.feed_plan).get i).pet_name = true →
        PetData.quest_pet_names.contains
            (((ZooFeedingAlgorithm.make w2Zoo
              w2Stock).make_plan.2.zookeeper_plan.feed_plan).get j).pet_name = true →
        (i : Nat) < j :=
  ⟨by decide, (C3_category_order w2Zoo w2Stock (by decide)).1⟩
